import Mathlib

/-!
# Spindump remote-event analysis (`spindump_analyze_event.c`)

A shallow embedding of the event-correlation code of `src/spindump_analyze_event.c`
and theorems about it.

Conventions of the embedding.

* A C string (`const char*`) is the `List Char` of the bytes that start at the pointer;
  the string proper ends before the first NUL (`c_str`), or at the end of the list.
* An output parameter (`uint16_t* p_peerId`, `spindump_port* p_side1port`, ...) is an
  extra argument holding the value stored at the pointer before the call, and an extra
  component of the result holding the value stored there after the call.
* C `int` results are `Int`; unsigned machine integers are `Nat`, with an explicit
  modulus where a conversion narrows.
* `sscanf`, `index` and `strlen` belong to the C library; they are embedded following
  ISO C and the GNU C library for the three formats this file uses.
* Declarations of `spindump_event.h`, `spindump_connections_structs.h` and
  `spindump_util.h` are not part of the file under study; the records below carry the
  fields that the code reads and writes.
-/

namespace Spindump

/-! ## C library: characters, strings, `sscanf` -/

/-- Largest `unsigned long` (LP64). -/
def ULONG_MAX : Nat := 2 ^ 64 - 1

/-- Largest `unsigned int`. -/
def UINT_MAX : Nat := 2 ^ 32 - 1

/-- The string a `char` pointer denotes: the bytes before the first NUL. -/
def c_str : List Char → List Char
  | [] => []
  | c :: cs => if c = '\x00' then [] else c :: c_str cs

/-- Function `isspace` in the C locale: space, `\t`, `\n`, `\v`, `\f`, `\r`. -/
def isspace (c : Char) : Bool :=
  c = ' ' || c = '\t' || c = '\n' || c = '\x0b' || c = '\x0c' || c = '\r'

/-- Value of a character as a digit in the given base, as `strtoul` reads it:
`0`-`9`, then letters of either case from ten upwards; `none` when the character
is no digit of the base. -/
def digit_value (base : Nat) (c : Char) : Option Nat :=
  let v : Option Nat :=
    if '0' ≤ c ∧ c ≤ '9' then some (c.toNat - '0'.toNat)
    else if 'a' ≤ c ∧ c ≤ 'z' then some (c.toNat - 'a'.toNat + 10)
    else if 'A' ≤ c ∧ c ≤ 'Z' then some (c.toNat - 'A'.toNat + 10)
    else none
  match v with
  | some d => if d < base then some d else none
  | none => none

/-- Skip the white space that precedes a conversion. -/
def skip_whitespace : List Char → List Char
  | [] => []
  | c :: cs => if isspace c then skip_whitespace cs else c :: cs

/-- Read the longest run of digits of the base, accumulating the (unbounded)
value; returns the value and the unread remainder. -/
def scan_digits (base : Nat) : Nat → List Char → Nat × List Char
  | acc, [] => (acc, [])
  | acc, c :: cs =>
    match digit_value base c with
    | some d => scan_digits base (acc * base + d) cs
    | none => (acc, c :: cs)

/-- Outcome of one `sscanf` conversion. -/
inductive scan_result where
  | input_failure : scan_result
  | matching_failure : scan_result
  | converted (value : Nat) (rest : List Char) : scan_result
deriving DecidableEq, Repr

/-- Value `strtoul` yields for digits of unbounded value `v` under an optional minus
sign: `ULONG_MAX` when `v` does not fit, else `v`, negated in `unsigned long` when
the sign is a minus. -/
def strtoul_value (neg : Bool) (v : Nat) : Nat :=
  if v > ULONG_MAX then ULONG_MAX
  else if neg then (ULONG_MAX + 1 - v) % (ULONG_MAX + 1)
  else v

/-- The digits of an unsigned conversion, after the sign. In base 16 a leading `0x`
or `0X` is read as part of the number (the `0` counts as a digit, as in the GNU C
library; where ISO C reports a matching failure for `0x` without a digit after it,
`spindump_analyze_event_charbytetobyte` returns `0` all the same). -/
def scan_unsigned_body (base : Nat) (neg : Bool) (body : List Char) : scan_result :=
  match body with
  | [] => scan_result.matching_failure
  | c :: cs =>
    if base = 16 ∧ c = '0' ∧ (cs.head? = some 'x' ∨ cs.head? = some 'X') then
      let r := scan_digits 16 0 (cs.drop 1)
      scan_result.converted (strtoul_value neg r.1) r.2
    else
      match digit_value base c with
      | none => scan_result.matching_failure
      | some _ =>
        let r := scan_digits base 0 (c :: cs)
        scan_result.converted (strtoul_value neg r.1) r.2

/-- One unsigned conversion (`%lu` with base 10, `%x` with base 16) on the unread
input: white space is skipped; end of input before any character of the number is an
input failure; an optional sign and then at least one digit are required. -/
def scan_unsigned (base : Nat) (s : List Char) : scan_result :=
  match skip_whitespace s with
  | [] => scan_result.input_failure
  | c :: cs =>
    if c = '-' then scan_unsigned_body base true cs
    else if c = '+' then scan_unsigned_body base false cs
    else scan_unsigned_body base false (c :: cs)

/-- Embedding of `sscanf(s,"%lu",&x)`: the return value (`EOF` is `-1`) and the
value stored in `x` (`0` stands for "nothing stored"). -/
def sscanf_lu (s : List Char) : Int × Nat :=
  match scan_unsigned 10 (c_str s) with
  | scan_result.input_failure => (-1, 0)
  | scan_result.matching_failure => (0, 0)
  | scan_result.converted x _ => (1, x)

/-- Embedding of `sscanf(s,"%lu:%lu",&x,&y)`: the return value and the values stored
in `x` and `y` (`0` stands for "nothing stored"). A failure after the first
conversion returns `1`. -/
def sscanf_lu_colon_lu (s : List Char) : Int × Nat × Nat :=
  match scan_unsigned 10 (c_str s) with
  | scan_result.input_failure => (-1, 0, 0)
  | scan_result.matching_failure => (0, 0, 0)
  | scan_result.converted x rest =>
    match rest with
    | [] => (1, x, 0)
    | c :: rest2 =>
      if c = ':' then
        match scan_unsigned 10 rest2 with
        | scan_result.converted y _ => (2, x, y)
        | _ => (1, x, 0)
      else (1, x, 0)

/-- Embedding of `sscanf(buf,"%x",&x)` with `unsigned int x`: the conversion is done
in `unsigned long` and stored narrowed to `unsigned int`. -/
def sscanf_x (s : List Char) : Int × Nat :=
  match scan_unsigned 16 (c_str s) with
  | scan_result.input_failure => (-1, 0)
  | scan_result.matching_failure => (0, 0)
  | scan_result.converted x _ => (1, x % (UINT_MAX + 1))

/-- Embedding of `index(s,c)`: offset of the first `c` in the string, if any. -/
def index (s : List Char) (c : Char) : Option Nat :=
  let str := c_str s
  let k := str.indexOf c
  if k < str.length then some k else none

/-- Embedding of `strlen`. -/
def strlen (s : List Char) : Nat := (c_str s).length

/-! ## Data model -/

/-- Embedding of `struct timeval`. -/
structure timeval where
  tv_sec : Int
  tv_usec : Int
deriving DecidableEq, Repr, Inhabited

/-- Order of two `struct timeval` values (seconds first, then microseconds). -/
def timeval_le (a b : timeval) : Prop :=
  a.tv_sec < b.tv_sec ∨ (a.tv_sec = b.tv_sec ∧ a.tv_usec ≤ b.tv_usec)

instance (a b : timeval) : Decidable (timeval_le a b) := by
  unfold timeval_le; exact inferInstance

/-- Values of `enum spindump_event_type`; `invalid` stands for any other value. -/
inductive spindump_event_type where
  | new_connection
  | change_connection
  | connection_delete
  | new_rtt_measurement
  | spin_flip
  | spin_value
  | ecn_congestion_event
  | invalid (code : Nat)
deriving DecidableEq, Repr, Inhabited

/-- Values of `enum spindump_connection_type` that the code switches on; `invalid`
stands for any other value. -/
inductive spindump_connection_type where
  | transport_tcp
  | transport_udp
  | transport_dns
  | transport_coap
  | transport_quic
  | transport_icmp
  | aggregate_hostpair
  | aggregate_hostnetwork
  | aggregate_networknetwork
  | aggregate_multicastgroup
  | invalid (code : Nat)
deriving DecidableEq, Repr, Inhabited

/-- Values of `enum spindump_direction`. -/
inductive spindump_direction where
  | frominitiator
  | fromresponder
deriving DecidableEq, Repr, Inhabited

/-- Values of `enum spindump_measurement_type`. -/
inductive spindump_measurement_type where
  | unidirectional
  | bidirectional
deriving DecidableEq, Repr, Inhabited

/-- An address (`spindump_address`): family and address bytes. -/
structure spindump_address where
  ss_family : Nat
  addr : List Nat
deriving DecidableEq, Repr, Inhabited

/-- A network (`spindump_network`): an address and a prefix length. -/
structure spindump_network where
  address : spindump_address
  length : Nat
deriving DecidableEq, Repr, Inhabited

/-- Member `u.newRttMeasurement` of an event. -/
structure spindump_event_new_rtt_measurement where
  measurement : spindump_measurement_type
  direction : spindump_direction
  rtt : Nat
deriving DecidableEq, Repr, Inhabited

/-- The fields of `struct spindump_event` that the code reads. -/
structure spindump_event where
  eventType : spindump_event_type
  connectionType : spindump_connection_type
  initiatorAddress : spindump_network
  responderAddress : spindump_network
  session : List Char
  timestamp : Nat
  packetsFromSide1 : Nat
  packetsFromSide2 : Nat
  bytesFromSide1 : Nat
  bytesFromSide2 : Nat
  newRttMeasurement : spindump_event_new_rtt_measurement
deriving DecidableEq, Repr, Inhabited

/-- The fields of `struct spindump_connection` that the code reads or writes; `id`
and `other` stand for the fields it does not touch. -/
structure spindump_connection where
  id : Nat
  other : Nat
  packetsFromSide1 : Nat
  packetsFromSide2 : Nat
  bytesFromSide1 : Nat
  bytesFromSide2 : Nat
  latestPacketFromSide1 : timeval
  latestPacketFromSide2 : timeval
deriving DecidableEq, Repr, Inhabited

/-- A QUIC connection id (`struct spindump_quic_connectionid`): a length and an array
of `spindump_connection_quic_cid_maxlen` bytes. -/
structure spindump_quic_connectionid where
  len : Nat
  id : List Nat
deriving DecidableEq, Repr, Inhabited

/-! ## The code of `spindump_analyze_event.c` -/

/-- Source lines 165-179. -/
def spindump_analyze_event_parseicmpsessionid (event : spindump_event) (p_peerId : Nat) :
    Int × Nat :=
  match sscanf_lu event.session with
  | (n, x) =>
    if n < 1 then (0, p_peerId)
    else if x > 65535 then (0, p_peerId)
    else (1, x % 65536)

/-- Source lines 217-233. -/
def spindump_analyze_event_parseportpair (event : spindump_event)
    (p_side1port p_side2port : Nat) : Int × Nat × Nat :=
  match sscanf_lu_colon_lu event.session with
  | (n, x, y) =>
    if n < 2 then (0, p_side1port, p_side2port)
    else if x > 65535 ∨ y > 65535 then (0, p_side1port, p_side2port)
    else (1, x % 65536, y % 65536)

/-- Source lines 240-254. The result is `(uint8_t)x`, and nothing is stored through
`byte`. -/
def spindump_analyze_event_charbytetobyte (ch1 ch2 : Char) (byte : Nat) : Int × Nat :=
  match sscanf_x [ch1, ch2, '\x00'] with
  | (n, x) =>
    if n < 1 then (0, byte)
    else (((x % 256 : Nat) : Int), byte)

/-- The `while (nchars >= 2)` loop of source lines 276-286; `buf[0]` and `buf[1]` are
read from the bytes at the pointer (NUL past their end). -/
def string_to_quicconnectionid_loop :
    List Char → Nat → spindump_quic_connectionid → Int × spindump_quic_connectionid
  | buf, nchars + 2, id =>
    if (spindump_analyze_event_charbytetobyte (buf.getD 0 '\x00') (buf.getD 1 '\x00') 0).1 = 0
    then (0, id)
    else string_to_quicconnectionid_loop (buf.drop 2) nchars { id with len := id.len + 1 }
  | _, _, id => (1, id)

/-- Source lines 261-288; `spindump_connection_quic_cid_maxlen` is a constant of
`spindump_connections_structs.h` and is a parameter here. -/
def spindump_analyze_event_string_to_quicconnectionid
    (spindump_connection_quic_cid_maxlen : Nat)
    (buf : List Char) (nchars : Nat) (id : spindump_quic_connectionid) :
    Int × spindump_quic_connectionid :=
  if nchars % 2 ≠ 0 then (0, id)
  else if nchars / 2 > spindump_connection_quic_cid_maxlen then (0, id)
  else
    string_to_quicconnectionid_loop buf nchars
      { len := 0, id := List.replicate spindump_connection_quic_cid_maxlen 0 }

/-- Source lines 295-345; the two lengths are narrowed to `unsigned int`. -/
def spindump_analyze_event_parsecidpair (spindump_connection_quic_cid_maxlen : Nat)
    (event : spindump_event) (p_side1cid p_side2cid : spindump_quic_connectionid) :
    Int × spindump_quic_connectionid × spindump_quic_connectionid :=
  match index event.session '-' with
  | none => (0, p_side1cid, p_side2cid)
  | some separator =>
    let r1 := spindump_analyze_event_string_to_quicconnectionid
      spindump_connection_quic_cid_maxlen event.session (separator % (UINT_MAX + 1)) p_side1cid
    if r1.1 = 0 then (0, r1.2, p_side2cid)
    else
      let r2 := spindump_analyze_event_string_to_quicconnectionid
        spindump_connection_quic_cid_maxlen (event.session.drop (separator + 1))
        ((strlen (event.session.drop separator) - 1) % (UINT_MAX + 1)) p_side2cid
      if r2.1 = 0 then (0, r1.2, r2.2)
      else (1, r1.2, r2.2)

/-- Source lines 854-886. `spindump_timestamp_to_timeval` is a helper of
`spindump_util.c` and is a parameter here; `state` is only asserted to be non-null. -/
def spindump_analyze_event_updateinfo (spindump_timestamp_to_timeval : Nat → timeval)
    (connection : spindump_connection) (event : spindump_event) : spindump_connection :=
  let connection1 :=
    if connection.packetsFromSide1 < event.packetsFromSide1 then
      { connection with latestPacketFromSide1 := spindump_timestamp_to_timeval event.timestamp }
    else connection
  let connection2 :=
    if connection1.packetsFromSide2 < event.packetsFromSide2 then
      { connection1 with latestPacketFromSide2 := spindump_timestamp_to_timeval event.timestamp }
    else connection1
  { connection2 with
    packetsFromSide1 := event.packetsFromSide1
    packetsFromSide2 := event.packetsFromSide2
    bytesFromSide1 := event.bytesFromSide1
    bytesFromSide2 := event.bytesFromSide2 }

/-- Source lines 186-195; `spindump_network_ishost` is a helper of `spindump_util.c`
and is a parameter here (non-zero when the network is a single host). -/
def spindump_analyze_event_parsehostpair (spindump_network_ishost : spindump_network → Int)
    (event : spindump_event) : Int :=
  let hostPair : Int :=
    if spindump_network_ishost event.initiatorAddress ≠ 0
        ∧ spindump_network_ishost event.responderAddress ≠ 0 then 1 else 0
  if hostPair = 0 then 0 else 1

/-- Source lines 202-210. -/
def spindump_analyze_event_parseside1host (spindump_network_ishost : spindump_network → Int)
    (event : spindump_event) : Int :=
  let host : Int := spindump_network_ishost event.initiatorAddress
  if host = 0 then 0 else 1

/-! ### The connection store and the RTT aggregator

The store (`spindump_connections_newconnection_*`, `spindump_connections_searchconnection_*`)
and the RTT aggregator (`spindump_connections_newrttmeasurement`) are defined outside the
file under study. Each call is recorded with its arguments, and what a call returns and
changes is a parameter (`externals`). A connection pointer is a `Nat` address, `0` being
the null pointer; the connection objects live in a heap indexed by address.
`spindump_errorf` only writes a diagnostic and is left out. -/

/-- Constant `ICMP_ECHOREPLY` of `netinet/ip_icmp.h`. -/
def ICMP_ECHOREPLY : Nat := 0

/-- A call of one of the store's create primitives with its arguments (the table
argument apart). `newconnection_coap` is part of the store but is never called by
this file. -/
inductive create_call where
  | newconnection_tcp (side1address side2address : spindump_address)
      (side1port side2port : Nat) (when : timeval)
  | newconnection_udp (side1address side2address : spindump_address)
      (side1port side2port : Nat) (when : timeval)
  | newconnection_dns (side1address side2address : spindump_address)
      (side1port side2port : Nat) (when : timeval)
  | newconnection_coap (side1address side2address : spindump_address)
      (side1port side2port : Nat) (when : timeval)
  | newconnection_quic_5tupleandcids (side1address side2address : spindump_address)
      (side1port side2port : Nat) (destinationCid sourceCid : spindump_quic_connectionid)
      (when : timeval)
  | newconnection_icmp (side1address side2address : spindump_address)
      (side1peerType : Nat) (side1peerId : Nat) (when : timeval)
  | newconnection_aggregate_hostpair (side1address side2address : spindump_address)
      (when : timeval) (manuallyCreated : Int)
  | newconnection_aggregate_hostnetwork (side1address : spindump_address)
      (side2network : spindump_network) (when : timeval) (manuallyCreated : Int)
  | newconnection_aggregate_networknetwork (side1network side2network : spindump_network)
      (when : timeval) (manuallyCreated : Int)
  | newconnection_aggregate_multicastgroup (group : spindump_address)
      (when : timeval) (manuallyCreated : Int)
deriving DecidableEq, Repr

/-- A call of one of the store's search primitives with its arguments (the table
argument apart). -/
inductive search_call where
  | searchconnection_tcp (side1address side2address : spindump_address)
      (side1port side2port : Nat)
  | searchconnection_udp (side1address side2address : spindump_address)
      (side1port side2port : Nat)
  | searchconnection_dns (side1address side2address : spindump_address)
      (side1port side2port : Nat)
  | searchconnection_coap (side1address side2address : spindump_address)
      (side1port side2port : Nat)
  | searchconnection_quic_cids (destinationCid sourceCid : spindump_quic_connectionid)
  | searchconnection_icmp (side1address side2address : spindump_address)
      (side1peerType : Nat) (side1peerId : Nat)
  | searchconnection_aggregate_hostpair (side1address side2address : spindump_address)
  | searchconnection_aggregate_hostnetwork (side1address : spindump_address)
      (side2network : spindump_network)
  | searchconnection_aggregate_networknetwork (side1network side2network : spindump_network)
  | searchconnection_aggregate_multicastgroup (group : spindump_address)
deriving DecidableEq, Repr

/-- The arguments of one call of `spindump_connections_newrttmeasurement` (the analyzer
state apart): packet pointer, connection pointer, the two flags, the two times and the
label. -/
structure newrttmeasurement_call where
  packet : Nat
  connection : Nat
  right : Int
  unidirectional : Int
  sent : timeval
  rcvd : timeval
  why : String
deriving DecidableEq, Repr

/-- One recorded call of an external primitive. -/
inductive extern_call where
  | create (call : create_call)
  | search (call : search_call)
  | newrttmeasurement (call : newrttmeasurement_call)
deriving DecidableEq, Repr

/-- The connection kind a create primitive belongs to. -/
def create_call.kind : create_call → spindump_connection_type
  | create_call.newconnection_tcp _ _ _ _ _ => spindump_connection_type.transport_tcp
  | create_call.newconnection_udp _ _ _ _ _ => spindump_connection_type.transport_udp
  | create_call.newconnection_dns _ _ _ _ _ => spindump_connection_type.transport_dns
  | create_call.newconnection_coap _ _ _ _ _ => spindump_connection_type.transport_coap
  | create_call.newconnection_quic_5tupleandcids _ _ _ _ _ _ _ =>
    spindump_connection_type.transport_quic
  | create_call.newconnection_icmp _ _ _ _ _ => spindump_connection_type.transport_icmp
  | create_call.newconnection_aggregate_hostpair _ _ _ _ =>
    spindump_connection_type.aggregate_hostpair
  | create_call.newconnection_aggregate_hostnetwork _ _ _ _ =>
    spindump_connection_type.aggregate_hostnetwork
  | create_call.newconnection_aggregate_networknetwork _ _ _ _ =>
    spindump_connection_type.aggregate_networknetwork
  | create_call.newconnection_aggregate_multicastgroup _ _ _ =>
    spindump_connection_type.aggregate_multicastgroup

/-- The connection kind a search primitive belongs to. -/
def search_call.kind : search_call → spindump_connection_type
  | search_call.searchconnection_tcp _ _ _ _ => spindump_connection_type.transport_tcp
  | search_call.searchconnection_udp _ _ _ _ => spindump_connection_type.transport_udp
  | search_call.searchconnection_dns _ _ _ _ => spindump_connection_type.transport_dns
  | search_call.searchconnection_coap _ _ _ _ => spindump_connection_type.transport_coap
  | search_call.searchconnection_quic_cids _ _ => spindump_connection_type.transport_quic
  | search_call.searchconnection_icmp _ _ _ _ => spindump_connection_type.transport_icmp
  | search_call.searchconnection_aggregate_hostpair _ _ =>
    spindump_connection_type.aggregate_hostpair
  | search_call.searchconnection_aggregate_hostnetwork _ _ =>
    spindump_connection_type.aggregate_hostnetwork
  | search_call.searchconnection_aggregate_networknetwork _ _ =>
    spindump_connection_type.aggregate_networknetwork
  | search_call.searchconnection_aggregate_multicastgroup _ =>
    spindump_connection_type.aggregate_multicastgroup

/-- What lies outside the file under study, for a store whose own data has type `τ`:
the constant and the two helpers, and the effect of each external call on the table
and on the connection objects. A create call returns a pointer (or `0`) and may change
both; a search call returns a pointer (or `0`) and changes nothing (the specification
gives it as a lookup, `search(key-fields) -> ConnectionHandle|none`); the RTT aggregator
may change both. -/
structure externals (τ : Type) where
  spindump_connection_quic_cid_maxlen : Nat
  spindump_timestamp_to_timeval : Nat → timeval
  spindump_network_ishost : spindump_network → Int
  newconnection : create_call → τ → (Nat → spindump_connection) →
    Nat × τ × (Nat → spindump_connection)
  searchconnection : search_call → τ → (Nat → spindump_connection) → Nat
  newrttmeasurement : newrttmeasurement_call → τ → (Nat → spindump_connection) →
    τ × (Nat → spindump_connection)

/-- The analyzer (`struct spindump_analyze`) as this file sees it: the connection table,
the connection objects that pointers refer to, and the external calls made so far. -/
structure spindump_analyze (τ : Type) where
  table : τ
  heap : Nat → spindump_connection
  trace : List extern_call

/-- Perform and record one create call on `state->table`. -/
def call_newconnection {τ : Type} (ext : externals τ) (call : create_call)
    (state : spindump_analyze τ) : Nat × spindump_analyze τ :=
  let r := ext.newconnection call state.table state.heap
  (r.1, { table := r.2.1, heap := r.2.2, trace := state.trace ++ [extern_call.create call] })

/-- Perform and record one search call on `state->table`. -/
def call_searchconnection {τ : Type} (ext : externals τ) (call : search_call)
    (state : spindump_analyze τ) : Nat × spindump_analyze τ :=
  (ext.searchconnection call state.table state.heap,
   { state with trace := state.trace ++ [extern_call.search call] })

/-- Perform and record one call of the RTT aggregator. -/
def call_newrttmeasurement {τ : Type} (ext : externals τ) (call : newrttmeasurement_call)
    (state : spindump_analyze τ) : spindump_analyze τ :=
  let r := ext.newrttmeasurement call state.table state.heap
  { table := r.1, heap := r.2, trace := state.trace ++ [extern_call.newrttmeasurement call] }

/-- The merge of source lines 854-886 applied to the object that `connection` points
to. -/
def updateinfo_at {τ : Type} (ext : externals τ) (state : spindump_analyze τ)
    (connection : Nat) (event : spindump_event) : spindump_analyze τ :=
  { state with
    heap := fun p =>
      if p = connection then
        spindump_analyze_event_updateinfo ext.spindump_timestamp_to_timeval
          (state.heap connection) event
      else state.heap p }

/-- Source lines 359-501. `p_connection` holds `*p_connection` at entry; `none` in the
`switch` stands for an early `return`, which leaves `*p_connection` and the state as
they were. The locals `side1port`, `side2port`, `side1cid`, `side2cid` and `peerid`
are not initialised in C and start here as `0` or the empty id. -/
def spindump_analyze_processevent_new_connection {τ : Type} (ext : externals τ)
    (state : spindump_analyze τ) (event : spindump_event) (p_connection : Nat) :
    Nat × spindump_analyze τ :=
  let when := ext.spindump_timestamp_to_timeval event.timestamp
  let switch : Option (Nat × spindump_analyze τ) :=
    match event.connectionType with
    | spindump_connection_type.transport_tcp =>
      if spindump_analyze_event_parsehostpair ext.spindump_network_ishost event = 0 then none
      else
        let ports := spindump_analyze_event_parseportpair event 0 0
        if ports.1 = 0 then none
        else
          some (call_newconnection ext
            (create_call.newconnection_tcp event.initiatorAddress.address
              event.responderAddress.address ports.2.1 ports.2.2 when) state)
    | spindump_connection_type.transport_udp =>
      if spindump_analyze_event_parsehostpair ext.spindump_network_ishost event = 0 then none
      else
        let ports := spindump_analyze_event_parseportpair event 0 0
        if ports.1 = 0 then none
        else
          some (call_newconnection ext
            (create_call.newconnection_udp event.initiatorAddress.address
              event.responderAddress.address ports.2.1 ports.2.2 when) state)
    | spindump_connection_type.transport_dns =>
      if spindump_analyze_event_parsehostpair ext.spindump_network_ishost event = 0 then none
      else
        let ports := spindump_analyze_event_parseportpair event 0 0
        if ports.1 = 0 then none
        else
          some (call_newconnection ext
            (create_call.newconnection_dns event.initiatorAddress.address
              event.responderAddress.address ports.2.1 ports.2.2 when) state)
    | spindump_connection_type.transport_coap =>
      if spindump_analyze_event_parsehostpair ext.spindump_network_ishost event = 0 then none
      else
        let ports := spindump_analyze_event_parseportpair event 0 0
        if ports.1 = 0 then none
        else
          some (call_newconnection ext
            (create_call.newconnection_dns event.initiatorAddress.address
              event.responderAddress.address ports.2.1 ports.2.2 when) state)
    | spindump_connection_type.transport_quic =>
      if spindump_analyze_event_parsehostpair ext.spindump_network_ishost event = 0 then none
      else
        let cids := spindump_analyze_event_parsecidpair ext.spindump_connection_quic_cid_maxlen
          event { len := 0, id := [] } { len := 0, id := [] }
        if cids.1 = 0 then none
        else
          let side1port := 0
          let side2port := 0
          some (call_newconnection ext
            (create_call.newconnection_quic_5tupleandcids event.initiatorAddress.address
              event.responderAddress.address side1port side2port cids.2.2 cids.2.1 when) state)
    | spindump_connection_type.transport_icmp =>
      if spindump_analyze_event_parsehostpair ext.spindump_network_ishost event = 0 then none
      else
        let peerid := spindump_analyze_event_parseicmpsessionid event 0
        if peerid.1 = 0 then none
        else
          some (call_newconnection ext
            (create_call.newconnection_icmp event.initiatorAddress.address
              event.responderAddress.address ICMP_ECHOREPLY peerid.2 when) state)
    | spindump_connection_type.aggregate_hostpair =>
      if spindump_analyze_event_parsehostpair ext.spindump_network_ishost event = 0 then none
      else
        some (call_newconnection ext
          (create_call.newconnection_aggregate_hostpair event.initiatorAddress.address
            event.responderAddress.address when 0) state)
    | spindump_connection_type.aggregate_hostnetwork =>
      if spindump_analyze_event_parseside1host ext.spindump_network_ishost event = 0 then none
      else
        some (call_newconnection ext
          (create_call.newconnection_aggregate_hostnetwork event.initiatorAddress.address
            event.responderAddress when 0) state)
    | spindump_connection_type.aggregate_networknetwork =>
      some (call_newconnection ext
        (create_call.newconnection_aggregate_networknetwork event.initiatorAddress
          event.responderAddress when 0) state)
    | spindump_connection_type.aggregate_multicastgroup =>
      if spindump_analyze_event_parseside1host ext.spindump_network_ishost event = 0 then none
      else
        some (call_newconnection ext
          (create_call.newconnection_aggregate_multicastgroup event.initiatorAddress.address
            when 0) state)
    | spindump_connection_type.invalid _ => none
  match switch with
  | none => (p_connection, state)
  | some r =>
    if r.1 ≠ 0 then (r.1, updateinfo_at ext r.2 r.1 event)
    else (r.1, r.2)

/-- Source lines 720-846: the pointer returned and the state after the call; `none` in
the `switch` stands for an early `return(0)`. -/
def spindump_analyze_processevent_find_connection {τ : Type} (ext : externals τ)
    (state : spindump_analyze τ) (event : spindump_event) : Nat × spindump_analyze τ :=
  let switch : Option (Nat × spindump_analyze τ) :=
    match event.connectionType with
    | spindump_connection_type.transport_tcp =>
      if spindump_analyze_event_parsehostpair ext.spindump_network_ishost event = 0 then none
      else
        let ports := spindump_analyze_event_parseportpair event 0 0
        if ports.1 = 0 then none
        else
          some (call_searchconnection ext
            (search_call.searchconnection_tcp event.initiatorAddress.address
              event.responderAddress.address ports.2.1 ports.2.2) state)
    | spindump_connection_type.transport_udp =>
      if spindump_analyze_event_parsehostpair ext.spindump_network_ishost event = 0 then none
      else
        let ports := spindump_analyze_event_parseportpair event 0 0
        if ports.1 = 0 then none
        else
          some (call_searchconnection ext
            (search_call.searchconnection_udp event.initiatorAddress.address
              event.responderAddress.address ports.2.1 ports.2.2) state)
    | spindump_connection_type.transport_dns =>
      if spindump_analyze_event_parsehostpair ext.spindump_network_ishost event = 0 then none
      else
        let ports := spindump_analyze_event_parseportpair event 0 0
        if ports.1 = 0 then none
        else
          some (call_searchconnection ext
            (search_call.searchconnection_dns event.initiatorAddress.address
              event.responderAddress.address ports.2.1 ports.2.2) state)
    | spindump_connection_type.transport_coap =>
      if spindump_analyze_event_parsehostpair ext.spindump_network_ishost event = 0 then none
      else
        let ports := spindump_analyze_event_parseportpair event 0 0
        if ports.1 = 0 then none
        else
          some (call_searchconnection ext
            (search_call.searchconnection_coap event.initiatorAddress.address
              event.responderAddress.address ports.2.1 ports.2.2) state)
    | spindump_connection_type.transport_quic =>
      if spindump_analyze_event_parsehostpair ext.spindump_network_ishost event = 0 then none
      else
        let cids := spindump_analyze_event_parsecidpair ext.spindump_connection_quic_cid_maxlen
          event { len := 0, id := [] } { len := 0, id := [] }
        if cids.1 = 0 then none
        else
          some (call_searchconnection ext
            (search_call.searchconnection_quic_cids cids.2.1 cids.2.2) state)
    | spindump_connection_type.transport_icmp =>
      if spindump_analyze_event_parsehostpair ext.spindump_network_ishost event = 0 then none
      else
        let peerid := spindump_analyze_event_parseicmpsessionid event 0
        if peerid.1 = 0 then none
        else
          some (call_searchconnection ext
            (search_call.searchconnection_icmp event.initiatorAddress.address
              event.responderAddress.address ICMP_ECHOREPLY peerid.2) state)
    | spindump_connection_type.aggregate_hostpair =>
      if spindump_analyze_event_parsehostpair ext.spindump_network_ishost event = 0 then none
      else
        some (call_searchconnection ext
          (search_call.searchconnection_aggregate_hostpair event.initiatorAddress.address
            event.responderAddress.address) state)
    | spindump_connection_type.aggregate_hostnetwork =>
      if spindump_analyze_event_parseside1host ext.spindump_network_ishost event = 0 then none
      else
        some (call_searchconnection ext
          (search_call.searchconnection_aggregate_hostnetwork event.initiatorAddress.address
            event.responderAddress) state)
    | spindump_connection_type.aggregate_networknetwork =>
      some (call_searchconnection ext
        (search_call.searchconnection_aggregate_networknetwork event.initiatorAddress
          event.responderAddress) state)
    | spindump_connection_type.aggregate_multicastgroup =>
      if spindump_analyze_event_parseside1host ext.spindump_network_ishost event = 0 then none
      else
        some (call_searchconnection ext
          (search_call.searchconnection_aggregate_multicastgroup
            event.initiatorAddress.address) state)
    | spindump_connection_type.invalid _ => none
  match switch with
  | none => (0, state)
  | some r =>
    if r.1 = 0 then (0, r.2)
    else (r.1, r.2)

/-- Source lines 515-531. -/
def spindump_analyze_processevent_change_connection {τ : Type} (ext : externals τ)
    (state : spindump_analyze τ) (event : spindump_event) : Nat × spindump_analyze τ :=
  let r := spindump_analyze_processevent_find_connection ext state event
  if r.1 = 0 then (r.1, r.2)
  else (r.1, updateinfo_at ext r.2 r.1 event)

/-- Source lines 545-564. -/
def spindump_analyze_processevent_connection_delete {τ : Type} (ext : externals τ)
    (state : spindump_analyze τ) (event : spindump_event) : Nat × spindump_analyze τ :=
  let r := spindump_analyze_processevent_find_connection ext state event
  if r.1 = 0 then (r.1, r.2)
  else (r.1, updateinfo_at ext r.2 r.1 event)

/-- Source lines 598-602: the earlier time stamp, with the subtraction done in
`unsigned long long`. -/
def timestampEarlier (timestamp rtt : Nat) : Nat :=
  if timestamp ≥ rtt then (timestamp + 2 ^ 64 - rtt) % 2 ^ 64
  else 0

/-- Source lines 578-617. -/
def spindump_analyze_processevent_new_rtt_measurement {τ : Type} (ext : externals τ)
    (state : spindump_analyze τ) (event : spindump_event) : Nat × spindump_analyze τ :=
  let r := spindump_analyze_processevent_find_connection ext state event
  if r.1 = 0 then (r.1, r.2)
  else
    let state1 := updateinfo_at ext r.2 r.1 event
    let timestamp := event.timestamp
    let sent := ext.spindump_timestamp_to_timeval
      (timestampEarlier timestamp event.newRttMeasurement.rtt)
    let rcvd := ext.spindump_timestamp_to_timeval timestamp
    let right : Int :=
      if event.newRttMeasurement.direction = spindump_direction.fromresponder then 1 else 0
    let unidirectional : Int :=
      if event.newRttMeasurement.measurement = spindump_measurement_type.unidirectional
      then 1 else 0
    (r.1, call_newrttmeasurement ext
      { packet := 0, connection := r.1, right := right, unidirectional := unidirectional,
        sent := sent, rcvd := rcvd, why := "remote update" } state1)

/-- Source lines 631-651. -/
def spindump_analyze_processevent_spin_flip {τ : Type} (ext : externals τ)
    (state : spindump_analyze τ) (event : spindump_event) : Nat × spindump_analyze τ :=
  let r := spindump_analyze_processevent_find_connection ext state event
  if r.1 = 0 then (r.1, r.2)
  else (r.1, updateinfo_at ext r.2 r.1 event)

/-- Source lines 665-682. -/
def spindump_analyze_processevent_spin_value {τ : Type} (ext : externals τ)
    (state : spindump_analyze τ) (event : spindump_event) : Nat × spindump_analyze τ :=
  let r := spindump_analyze_processevent_find_connection ext state event
  if r.1 = 0 then (r.1, r.2)
  else (r.1, updateinfo_at ext r.2 r.1 event)

/-- Source lines 696-712. -/
def spindump_analyze_processevent_ecn_congestion_event {τ : Type} (ext : externals τ)
    (state : spindump_analyze τ) (event : spindump_event) : Nat × spindump_analyze τ :=
  let r := spindump_analyze_processevent_find_connection ext state event
  if r.1 = 0 then (r.1, r.2)
  else (r.1, updateinfo_at ext r.2 r.1 event)

/-- Source lines 119-159: the value of `*p_connection` on return and the state after
the call. -/
def spindump_analyze_processevent {τ : Type} (ext : externals τ)
    (state : spindump_analyze τ) (event : spindump_event) : Nat × spindump_analyze τ :=
  let p_connection := 0
  match event.eventType with
  | spindump_event_type.new_connection =>
    spindump_analyze_processevent_new_connection ext state event p_connection
  | spindump_event_type.change_connection =>
    spindump_analyze_processevent_change_connection ext state event
  | spindump_event_type.connection_delete =>
    spindump_analyze_processevent_connection_delete ext state event
  | spindump_event_type.new_rtt_measurement =>
    spindump_analyze_processevent_new_rtt_measurement ext state event
  | spindump_event_type.spin_flip =>
    spindump_analyze_processevent_spin_flip ext state event
  | spindump_event_type.spin_value =>
    spindump_analyze_processevent_spin_value ext state event
  | spindump_event_type.ecn_congestion_event =>
    spindump_analyze_processevent_ecn_congestion_event ext state event
  | spindump_event_type.invalid _ => (p_connection, state)

/-! ## Text forms used in the statements -/

/-- Function `isdigit`: the decimal digits `0`-`9`. -/
def isdigit (c : Char) : Bool := decide ('0' ≤ c ∧ c ≤ '9')

/-- Value of a decimal numeral given as its list of digits. -/
def decimal_value (digits : List Char) : Nat :=
  digits.foldl (fun acc c => acc * 10 + (c.toNat - 48)) 0

/-- The strict pattern `<uint>`: one or more decimal digits and nothing else. -/
def matches_uint (s : List Char) : Bool :=
  !s.isEmpty && s.all isdigit

/-- Text that one `%lu` conversion consumes: optional white space, an optional sign,
one or more decimal digits. -/
def unsigned_field (field : List Char) : Prop :=
  ∃ ws sg ds : List Char, field = ws ++ sg ++ ds
    ∧ (∀ c ∈ ws, isspace c = true)
    ∧ (sg = [] ∨ sg = ['+'] ∨ sg = ['-'])
    ∧ ds ≠ [] ∧ (∀ c ∈ ds, isdigit c = true)

/-- Function `isxdigit`: the hexadecimal digits. -/
def isxdigit (c : Char) : Bool :=
  decide (('0' ≤ c ∧ c ≤ '9') ∨ ('a' ≤ c ∧ c ≤ 'f') ∨ ('A' ≤ c ∧ c ≤ 'F'))

/-- The bytes that a string of hexadecimal digit pairs denotes, pair by pair (the value
the specification expects a connection id text to decode to). -/
def hex_bytes : List Char → List Nat
  | c1 :: c2 :: cs =>
    ((digit_value 16 c1).getD 0 * 16 + (digit_value 16 c2).getD 0) :: hex_bytes cs
  | _ => []

/-! ## Derived views of the code used in the statements -/

/-- The create call that the `switch` of source lines 371-490 issues for the event, and
`none` where it returns early. -/
def create_request {τ : Type} (ext : externals τ) (event : spindump_event) :
    Option create_call :=
  match event.connectionType with
  | spindump_connection_type.transport_tcp =>
    if spindump_analyze_event_parsehostpair ext.spindump_network_ishost event = 0 then none
    else
      let ports := spindump_analyze_event_parseportpair event 0 0
      if ports.1 = 0 then none
      else
        some (create_call.newconnection_tcp event.initiatorAddress.address
          event.responderAddress.address ports.2.1 ports.2.2 (ext.spindump_timestamp_to_timeval event.timestamp))
  | spindump_connection_type.transport_udp =>
    if spindump_analyze_event_parsehostpair ext.spindump_network_ishost event = 0 then none
    else
      let ports := spindump_analyze_event_parseportpair event 0 0
      if ports.1 = 0 then none
      else
        some (create_call.newconnection_udp event.initiatorAddress.address
          event.responderAddress.address ports.2.1 ports.2.2 (ext.spindump_timestamp_to_timeval event.timestamp))
  | spindump_connection_type.transport_dns =>
    if spindump_analyze_event_parsehostpair ext.spindump_network_ishost event = 0 then none
    else
      let ports := spindump_analyze_event_parseportpair event 0 0
      if ports.1 = 0 then none
      else
        some (create_call.newconnection_dns event.initiatorAddress.address
          event.responderAddress.address ports.2.1 ports.2.2 (ext.spindump_timestamp_to_timeval event.timestamp))
  | spindump_connection_type.transport_coap =>
    if spindump_analyze_event_parsehostpair ext.spindump_network_ishost event = 0 then none
    else
      let ports := spindump_analyze_event_parseportpair event 0 0
      if ports.1 = 0 then none
      else
        some (create_call.newconnection_dns event.initiatorAddress.address
          event.responderAddress.address ports.2.1 ports.2.2 (ext.spindump_timestamp_to_timeval event.timestamp))
  | spindump_connection_type.transport_quic =>
    if spindump_analyze_event_parsehostpair ext.spindump_network_ishost event = 0 then none
    else
      let cids := spindump_analyze_event_parsecidpair ext.spindump_connection_quic_cid_maxlen
        event { len := 0, id := [] } { len := 0, id := [] }
      if cids.1 = 0 then none
      else
        some (create_call.newconnection_quic_5tupleandcids event.initiatorAddress.address
          event.responderAddress.address 0 0 cids.2.2 cids.2.1
          (ext.spindump_timestamp_to_timeval event.timestamp))
  | spindump_connection_type.transport_icmp =>
    if spindump_analyze_event_parsehostpair ext.spindump_network_ishost event = 0 then none
    else
      let peerid := spindump_analyze_event_parseicmpsessionid event 0
      if peerid.1 = 0 then none
      else
        some (create_call.newconnection_icmp event.initiatorAddress.address
          event.responderAddress.address ICMP_ECHOREPLY peerid.2
          (ext.spindump_timestamp_to_timeval event.timestamp))
  | spindump_connection_type.aggregate_hostpair =>
    if spindump_analyze_event_parsehostpair ext.spindump_network_ishost event = 0 then none
    else
      some (create_call.newconnection_aggregate_hostpair event.initiatorAddress.address
        event.responderAddress.address (ext.spindump_timestamp_to_timeval event.timestamp) 0)
  | spindump_connection_type.aggregate_hostnetwork =>
    if spindump_analyze_event_parseside1host ext.spindump_network_ishost event = 0 then none
    else
      some (create_call.newconnection_aggregate_hostnetwork event.initiatorAddress.address
        event.responderAddress (ext.spindump_timestamp_to_timeval event.timestamp) 0)
  | spindump_connection_type.aggregate_networknetwork =>
    some (create_call.newconnection_aggregate_networknetwork event.initiatorAddress
      event.responderAddress (ext.spindump_timestamp_to_timeval event.timestamp) 0)
  | spindump_connection_type.aggregate_multicastgroup =>
    if spindump_analyze_event_parseside1host ext.spindump_network_ishost event = 0 then none
    else
      some (create_call.newconnection_aggregate_multicastgroup event.initiatorAddress.address
        (ext.spindump_timestamp_to_timeval event.timestamp) 0)
  | spindump_connection_type.invalid _ => none

/-- The search call that the `switch` of source lines 730-830 issues for the event, and
`none` where it returns early. -/
def search_request {τ : Type} (ext : externals τ) (event : spindump_event) :
    Option search_call :=
  match event.connectionType with
  | spindump_connection_type.transport_tcp =>
    if spindump_analyze_event_parsehostpair ext.spindump_network_ishost event = 0 then none
    else
      let ports := spindump_analyze_event_parseportpair event 0 0
      if ports.1 = 0 then none
      else
        some (search_call.searchconnection_tcp event.initiatorAddress.address
          event.responderAddress.address ports.2.1 ports.2.2)
  | spindump_connection_type.transport_udp =>
    if spindump_analyze_event_parsehostpair ext.spindump_network_ishost event = 0 then none
    else
      let ports := spindump_analyze_event_parseportpair event 0 0
      if ports.1 = 0 then none
      else
        some (search_call.searchconnection_udp event.initiatorAddress.address
          event.responderAddress.address ports.2.1 ports.2.2)
  | spindump_connection_type.transport_dns =>
    if spindump_analyze_event_parsehostpair ext.spindump_network_ishost event = 0 then none
    else
      let ports := spindump_analyze_event_parseportpair event 0 0
      if ports.1 = 0 then none
      else
        some (search_call.searchconnection_dns event.initiatorAddress.address
          event.responderAddress.address ports.2.1 ports.2.2)
  | spindump_connection_type.transport_coap =>
    if spindump_analyze_event_parsehostpair ext.spindump_network_ishost event = 0 then none
    else
      let ports := spindump_analyze_event_parseportpair event 0 0
      if ports.1 = 0 then none
      else
        some (search_call.searchconnection_coap event.initiatorAddress.address
          event.responderAddress.address ports.2.1 ports.2.2)
  | spindump_connection_type.transport_quic =>
    if spindump_analyze_event_parsehostpair ext.spindump_network_ishost event = 0 then none
    else
      let cids := spindump_analyze_event_parsecidpair ext.spindump_connection_quic_cid_maxlen
        event { len := 0, id := [] } { len := 0, id := [] }
      if cids.1 = 0 then none
      else some (search_call.searchconnection_quic_cids cids.2.1 cids.2.2)
  | spindump_connection_type.transport_icmp =>
    if spindump_analyze_event_parsehostpair ext.spindump_network_ishost event = 0 then none
    else
      let peerid := spindump_analyze_event_parseicmpsessionid event 0
      if peerid.1 = 0 then none
      else
        some (search_call.searchconnection_icmp event.initiatorAddress.address
          event.responderAddress.address ICMP_ECHOREPLY peerid.2)
  | spindump_connection_type.aggregate_hostpair =>
    if spindump_analyze_event_parsehostpair ext.spindump_network_ishost event = 0 then none
    else
      some (search_call.searchconnection_aggregate_hostpair event.initiatorAddress.address
        event.responderAddress.address)
  | spindump_connection_type.aggregate_hostnetwork =>
    if spindump_analyze_event_parseside1host ext.spindump_network_ishost event = 0 then none
    else
      some (search_call.searchconnection_aggregate_hostnetwork event.initiatorAddress.address
        event.responderAddress)
  | spindump_connection_type.aggregate_networknetwork =>
    some (search_call.searchconnection_aggregate_networknetwork event.initiatorAddress
      event.responderAddress)
  | spindump_connection_type.aggregate_multicastgroup =>
    if spindump_analyze_event_parseside1host ext.spindump_network_ishost event = 0 then none
    else
      some (search_call.searchconnection_aggregate_multicastgroup
        event.initiatorAddress.address)
  | spindump_connection_type.invalid _ => none

/-- The call of the RTT aggregator that source lines 598-617 make for the connection
that `connection` points to. -/
def rtt_request {τ : Type} (ext : externals τ) (event : spindump_event) (connection : Nat) :
    newrttmeasurement_call :=
  { packet := 0,
    connection := connection,
    right :=
      if event.newRttMeasurement.direction = spindump_direction.fromresponder then 1 else 0,
    unidirectional :=
      if event.newRttMeasurement.measurement = spindump_measurement_type.unidirectional
      then 1 else 0,
    sent := ext.spindump_timestamp_to_timeval
      (timestampEarlier event.timestamp event.newRttMeasurement.rtt),
    rcvd := ext.spindump_timestamp_to_timeval event.timestamp,
    why := "remote update" }

/-- The event's address-shape validation or session decode fails: the check that the
event's connection kind requires (host pair and port pair for tcp, udp, dns and coap;
host pair and connection id pair for quic; host pair and identifier for icmp; host pair
for the host-pair aggregate; side 1 host for the host-network and multicast-group
aggregates; none for the network-network aggregate) returns `0`. -/
def decode_fails {τ : Type} (ext : externals τ) (event : spindump_event) : Bool :=
  let hostpair := spindump_analyze_event_parsehostpair ext.spindump_network_ishost event
  let side1host := spindump_analyze_event_parseside1host ext.spindump_network_ishost event
  let portpair := (spindump_analyze_event_parseportpair event 0 0).1
  match event.connectionType with
  | spindump_connection_type.transport_tcp => decide (hostpair = 0 ∨ portpair = 0)
  | spindump_connection_type.transport_udp => decide (hostpair = 0 ∨ portpair = 0)
  | spindump_connection_type.transport_dns => decide (hostpair = 0 ∨ portpair = 0)
  | spindump_connection_type.transport_coap => decide (hostpair = 0 ∨ portpair = 0)
  | spindump_connection_type.transport_quic =>
    decide (hostpair = 0
      ∨ (spindump_analyze_event_parsecidpair ext.spindump_connection_quic_cid_maxlen event
          { len := 0, id := [] } { len := 0, id := [] }).1 = 0)
  | spindump_connection_type.transport_icmp =>
    decide (hostpair = 0 ∨ (spindump_analyze_event_parseicmpsessionid event 0).1 = 0)
  | spindump_connection_type.aggregate_hostpair => decide (hostpair = 0)
  | spindump_connection_type.aggregate_hostnetwork => decide (side1host = 0)
  | spindump_connection_type.aggregate_networknetwork => false
  | spindump_connection_type.aggregate_multicastgroup => decide (side1host = 0)
  | spindump_connection_type.invalid _ => false

/-- The six recognized event types other than new-connection. -/
def find_event_types : List spindump_event_type :=
  [spindump_event_type.change_connection, spindump_event_type.connection_delete,
   spindump_event_type.new_rtt_measurement, spindump_event_type.spin_flip,
   spindump_event_type.spin_value, spindump_event_type.ecn_congestion_event]

/-- The external calls made during one call of `spindump_analyze_processevent`: what
the call has added to the record of calls. -/
def calls_made {τ : Type} (ext : externals τ) (state : spindump_analyze τ)
    (event : spindump_event) : List extern_call :=
  (spindump_analyze_processevent ext state event).2.trace.drop state.trace.length

/-- The four packet and byte counters of a connection object. -/
def connection_counters (c : spindump_connection) : Nat × Nat × Nat × Nat :=
  (c.packetsFromSide1, c.packetsFromSide2, c.bytesFromSide1, c.bytesFromSide2)

/-- The four packet and byte counters that an event carries. -/
def event_counters (e : spindump_event) : Nat × Nat × Nat × Nat :=
  (e.packetsFromSide1, e.packetsFromSide2, e.bytesFromSide1, e.bytesFromSide2)

/-- The RTT aggregator leaves the packet and byte counters of every connection object
as they are (it records RTT samples only). -/
def aggregator_keeps_counters {τ : Type} (ext : externals τ) : Prop :=
  ∀ (call : newrttmeasurement_call) (table : τ) (heap : Nat → spindump_connection) (p : Nat),
    connection_counters ((ext.newrttmeasurement call table heap).2 p)
      = connection_counters (heap p)

/-- Whether a recorded call is a call of the RTT aggregator. -/
def extern_call.is_newrttmeasurement : extern_call → Bool
  | extern_call.newrttmeasurement _ => true
  | _ => false

/-- The number of calls of the RTT aggregator among recorded calls. -/
def rtt_call_count (calls : List extern_call) : Nat :=
  calls.countP extern_call.is_newrttmeasurement

/-! ## Sample values used in concrete instances -/

/-- A sample conversion for the `spindump_timestamp_to_timeval` parameter: microseconds
split into seconds and microseconds. -/
def sample_timestamp_to_timeval (timestamp : Nat) : timeval :=
  { tv_sec := ((timestamp / 1000000 : Nat) : Int), tv_usec := ((timestamp % 1000000 : Nat) : Int) }

/-- A sample connection: stored packet counters `5` and `5`, byte counters `500` and
`500`, both latest-packet times at 2 s. -/
def sample_connection : spindump_connection :=
  { id := 1, other := 0,
    packetsFromSide1 := 5, packetsFromSide2 := 5,
    bytesFromSide1 := 500, bytesFromSide2 := 500,
    latestPacketFromSide1 := { tv_sec := 2, tv_usec := 0 },
    latestPacketFromSide2 := { tv_sec := 2, tv_usec := 0 } }

/-- A sample event with the given session text, time stamp and side 1 packet counter;
its other counters are `5`, `600` and `600`. -/
def sample_event (session : String) (timestamp packetsFromSide1 : Nat) : spindump_event :=
  { eventType := spindump_event_type.change_connection,
    connectionType := spindump_connection_type.transport_tcp,
    initiatorAddress := { address := { ss_family := 2, addr := [10, 0, 0, 1] }, length := 32 },
    responderAddress := { address := { ss_family := 2, addr := [10, 0, 0, 2] }, length := 32 },
    session := session.toList,
    timestamp := timestamp,
    packetsFromSide1 := packetsFromSide1, packetsFromSide2 := 5,
    bytesFromSide1 := 600, bytesFromSide2 := 600,
    newRttMeasurement :=
      { measurement := spindump_measurement_type.bidirectional,
        direction := spindump_direction.frominitiator, rtt := 0 } }

/-- A sample `spindump_network_ishost`: a prefix of 32 bits is a host. -/
def sample_ishost (network : spindump_network) : Int :=
  if network.length = 32 then 1 else 0

/-- A sample store whose table is the number of connections created so far: a create
call returns the next address, a search call returns the address created last (`0` when
there is none), and the RTT aggregator changes nothing. -/
def sample_externals : externals Nat :=
  { spindump_connection_quic_cid_maxlen := 18,
    spindump_timestamp_to_timeval := sample_timestamp_to_timeval,
    spindump_network_ishost := sample_ishost,
    newconnection := fun _ table heap => (table + 1, table + 1, heap),
    searchconnection := fun _ table _ => table,
    newrttmeasurement := fun _ table heap => (table, heap) }

/-- A sample analyzer state whose store holds `table` connections, every connection
object being `sample_connection`, with no call recorded. -/
def sample_state (table : Nat) : spindump_analyze Nat :=
  { table := table, heap := fun _ => sample_connection, trace := [] }

/-- The sample event with the given event type, connection kind and session text, at
time stamp `1000` with an RTT payload of `300` measured unidirectionally from the
responder. -/
def sample_typed_event (eventType : spindump_event_type)
    (connectionType : spindump_connection_type) (session : String) : spindump_event :=
  { sample_event session 1000 6 with
    eventType := eventType,
    connectionType := connectionType,
    newRttMeasurement :=
      { measurement := spindump_measurement_type.unidirectional,
        direction := spindump_direction.fromresponder, rtt := 300 } }

/-! ## Characters and digits -/

theorem char_le_iff (a b : Char) : a ≤ b ↔ a.toNat ≤ b.toNat := by
  rfl

theorem isdigit_iff (c : Char) : isdigit c = true ↔ 48 ≤ c.toNat ∧ c.toNat ≤ 57 := by
  simp only [isdigit, decide_eq_true_eq, char_le_iff]
  rfl

theorem digit_value_ten (c : Char) :
    digit_value 10 c = if isdigit c then some (c.toNat - 48) else none := by
  by_cases h : isdigit c = true
  · have h2 := (isdigit_iff c).1 h
    have h3 : '0' ≤ c ∧ c ≤ '9' := by simpa [isdigit] using h
    simp only [digit_value, h3, and_self, if_true, h]
    have e0 : '0'.toNat = 48 := rfl
    have : c.toNat - 48 < 10 := by omega
    rw [e0]
    simp [this]
  · have h3 : ¬ ('0' ≤ c ∧ c ≤ '9') := by simpa [isdigit] using h
    simp only [digit_value, h3, if_false, h]
    by_cases ha : 'a' ≤ c ∧ c ≤ 'z'
    · simp [ha]
    · simp only [ha, if_false]
      by_cases hA : 'A' ≤ c ∧ c ≤ 'Z'
      · simp [hA]
      · simp [hA]

theorem digitChar_isdigit (k : Nat) (hk : k < 10) :
    isdigit (Nat.digitChar k) = true ∧ (Nat.digitChar k).toNat - 48 = k := by
  interval_cases k <;> decide

theorem isdigit_not_special (c : Char) (h : isdigit c = true) :
    isspace c = false ∧ c ≠ '\x00' ∧ c ≠ '+' ∧ c ≠ '-' ∧ c ≠ ':' := by
  refine ⟨?_, ?_, ?_, ?_, ?_⟩
  · simp only [isspace, Bool.or_eq_false_iff, decide_eq_false_iff_not]
    refine ⟨⟨⟨⟨⟨?_, ?_⟩, ?_⟩, ?_⟩, ?_⟩, ?_⟩ <;> (rintro rfl; revert h; decide)
  all_goals (rintro rfl; revert h; decide)

/-! ## Scanning a decimal numeral -/

theorem c_str_append (a b : List Char) (ha : ∀ c ∈ a, c ≠ '\x00') :
    c_str (a ++ b) = a ++ c_str b := by
  induction a with
  | nil => rfl
  | cons x xs ih =>
    have hx : x ≠ '\x00' := ha x (List.mem_cons_self _ _)
    have hxs : ∀ c ∈ xs, c ≠ '\x00' := fun c hc => ha c (List.mem_cons_of_mem _ hc)
    simp [c_str, hx, ih hxs]

theorem c_str_eq_self (a : List Char) (ha : ∀ c ∈ a, c ≠ '\x00') : c_str a = a := by
  have h := c_str_append a [] ha
  simpa [c_str] using h

theorem scan_digits_append (ds : List Char) (hds : ∀ c ∈ ds, isdigit c = true)
    (rest : List Char) (hrest : ∀ c, rest.head? = some c → isdigit c = false) (acc : Nat) :
    scan_digits 10 acc (ds ++ rest)
      = (ds.foldl (fun acc c => acc * 10 + (c.toNat - 48)) acc, rest) := by
  induction ds generalizing acc with
  | nil =>
    cases rest with
    | nil => rfl
    | cons r rs =>
      have hr : isdigit r = false := hrest r rfl
      simp [scan_digits, digit_value_ten, hr]
  | cons d ds ih =>
    have hd : isdigit d = true := hds d (List.mem_cons_self _ _)
    have hds2 : ∀ c ∈ ds, isdigit c = true := fun c hc => hds c (List.mem_cons_of_mem _ hc)
    simp [scan_digits, digit_value_ten, hd, ih hds2]

theorem scan_unsigned_numeral (ds : List Char) (hne : ds ≠ [])
    (hds : ∀ c ∈ ds, isdigit c = true)
    (rest : List Char) (hrest : ∀ c, rest.head? = some c → isdigit c = false) :
    scan_unsigned 10 (ds ++ rest)
      = scan_result.converted (strtoul_value false (decimal_value ds)) rest := by
  cases ds with
  | nil => exact absurd rfl hne
  | cons d ds2 =>
    have hd : isdigit d = true := hds d (List.mem_cons_self _ _)
    obtain ⟨h1, _, h3, h4, _⟩ := isdigit_not_special d hd
    have hscan := scan_digits_append (d :: ds2) hds rest hrest 0
    simp only [List.cons_append] at hscan
    have hbody : scan_unsigned_body 10 false (d :: (ds2 ++ rest))
        = scan_result.converted (strtoul_value false (decimal_value (d :: ds2))) rest := by
      have h16 : ¬ ((10 : Nat) = 16 ∧ d = '0'
          ∧ ((ds2 ++ rest).head? = some 'x' ∨ (ds2 ++ rest).head? = some 'X')) := by
        intro h; exact absurd h.1 (by decide)
      simp only [scan_unsigned_body, if_neg h16, digit_value_ten d, hd, if_true, hscan,
        decimal_value]
    have hskip : skip_whitespace (d :: (ds2 ++ rest)) = d :: (ds2 ++ rest) := by
      simp [skip_whitespace, h1]
    simp only [scan_unsigned, List.cons_append, hskip, if_neg h4, if_neg h3, hbody]

theorem toDigitsCore_numeral (fuel : Nat) :
    ∀ (n : Nat) (tail : List Char), n < fuel →
      ∃ ds : List Char, Nat.toDigitsCore 10 fuel n tail = ds ++ tail ∧ ds ≠ []
        ∧ (∀ c ∈ ds, isdigit c = true) ∧ decimal_value ds = n := by
  induction fuel with
  | zero => intro n tail h; omega
  | succ fuel ih =>
    intro n tail h
    have hk : n % 10 < 10 := Nat.mod_lt _ (by decide)
    obtain ⟨hdig, hval⟩ := digitChar_isdigit (n % 10) hk
    by_cases h0 : n / 10 = 0
    · refine ⟨[Nat.digitChar (n % 10)], ?_, by simp, ?_, ?_⟩
      · simp [Nat.toDigitsCore, h0]
      · intro c hc
        rw [List.mem_singleton] at hc
        rw [hc]; exact hdig
      · simp only [decimal_value, List.foldl, hval]
        omega
    · have hlt : n / 10 < fuel := by omega
      obtain ⟨ds, he, _, hall, hv⟩ := ih (n / 10) (Nat.digitChar (n % 10) :: tail) hlt
      refine ⟨ds ++ [Nat.digitChar (n % 10)], ?_, by simp, ?_, ?_⟩
      · simp [Nat.toDigitsCore, h0, he]
      · intro c hc
        rcases List.mem_append.1 hc with hc | hc
        · exact hall c hc
        · rw [List.mem_singleton] at hc
          rw [hc]; exact hdig
      · simp only [decimal_value] at hv ⊢
        rw [List.foldl_append, hv]
        simp only [List.foldl, hval]
        omega

theorem toString_numeral (n : Nat) :
    (toString n).toList ≠ [] ∧ (∀ c ∈ (toString n).toList, isdigit c = true)
      ∧ decimal_value (toString n).toList = n := by
  obtain ⟨ds, he, hne, hall, hv⟩ := toDigitsCore_numeral (n + 1) n [] (Nat.lt_succ_self n)
  have e : (toString n).toList = ds := by
    show (Nat.toDigits 10 n) = ds
    simpa [Nat.toDigits] using he
  rw [e]
  exact ⟨hne, hall, hv⟩

theorem digits_no_nul (ds : List Char) (hds : ∀ c ∈ ds, isdigit c = true) :
    ∀ c ∈ ds, c ≠ '\x00' :=
  fun c hc => (isdigit_not_special c (hds c hc)).2.1

theorem sscanf_lu_numeral (ds : List Char) (hne : ds ≠ [])
    (hds : ∀ c ∈ ds, isdigit c = true) :
    sscanf_lu ds = (1, strtoul_value false (decimal_value ds)) := by
  have h := scan_unsigned_numeral ds hne hds [] (by simp)
  rw [List.append_nil] at h
  simp [sscanf_lu, c_str_eq_self ds (digits_no_nul ds hds), h]

theorem sscanf_lu_colon_lu_numerals (d1 d2 : List Char) (hne1 : d1 ≠ []) (hne2 : d2 ≠ [])
    (hd1 : ∀ c ∈ d1, isdigit c = true) (hd2 : ∀ c ∈ d2, isdigit c = true) :
    sscanf_lu_colon_lu (d1 ++ ':' :: d2)
      = (2, strtoul_value false (decimal_value d1), strtoul_value false (decimal_value d2)) := by
  have hnul : ∀ c ∈ d1 ++ ':' :: d2, c ≠ '\x00' := by
    intro c hc
    rcases List.mem_append.1 hc with hc | hc
    · exact digits_no_nul d1 hd1 c hc
    · rcases List.mem_cons.1 hc with hc | hc
      · rw [hc]; decide
      · exact digits_no_nul d2 hd2 c hc
  have h1 := scan_unsigned_numeral d1 hne1 hd1 (':' :: d2) (by
    intro c hc
    simp only [List.head?_cons, Option.some.injEq] at hc
    rw [← hc]; decide)
  have h2 := scan_unsigned_numeral d2 hne2 hd2 [] (by simp)
  rw [List.append_nil] at h2
  simp [sscanf_lu_colon_lu, c_str_eq_self _ hnul, h1, h2]

theorem strtoul_value_small (v : Nat) (h : v ≤ 65535) : strtoul_value false v = v := by
  have : ¬ v > ULONG_MAX := by simp only [ULONG_MAX]; omega
  simp [strtoul_value, this]

theorem strtoul_value_large (v : Nat) (h : v > 65535) : strtoul_value false v > 65535 := by
  unfold strtoul_value
  split
  · simp [ULONG_MAX]
  · simpa using h

/-! ## What a successful conversion has consumed -/

theorem c_str_split (s : List Char) : ∃ tail : List Char, s = c_str s ++ tail := by
  induction s with
  | nil => exact ⟨[], rfl⟩
  | cons x xs ih =>
    by_cases hx : x = '\x00'
    · exact ⟨x :: xs, by simp [c_str, hx]⟩
    · obtain ⟨tail, ht⟩ := ih
      refine ⟨tail, ?_⟩
      simp only [c_str, if_neg hx, List.cons_append]
      rw [← ht]

theorem skip_whitespace_split (s : List Char) :
    ∃ ws : List Char, s = ws ++ skip_whitespace s ∧ ∀ c ∈ ws, isspace c = true := by
  induction s with
  | nil => exact ⟨[], rfl, by simp⟩
  | cons x xs ih =>
    by_cases hx : isspace x = true
    · obtain ⟨ws, hws, hall⟩ := ih
      refine ⟨x :: ws, ?_, ?_⟩
      · simp only [skip_whitespace, hx, if_true, List.cons_append]
        rw [← hws]
      · intro c hc
        rcases List.mem_cons.1 hc with hc | hc
        · rw [hc]; exact hx
        · exact hall c hc
    · exact ⟨[], by simp [skip_whitespace, hx], by simp⟩

theorem scan_digits_split (s : List Char) :
    ∀ acc : Nat, ∃ ds : List Char, s = ds ++ (scan_digits 10 acc s).2
      ∧ ∀ c ∈ ds, isdigit c = true := by
  induction s with
  | nil => intro acc; exact ⟨[], rfl, by simp⟩
  | cons x xs ih =>
    intro acc
    by_cases hx : isdigit x = true
    · obtain ⟨ds, hds, hall⟩ := ih (acc * 10 + (x.toNat - 48))
      refine ⟨x :: ds, ?_, ?_⟩
      · simp only [scan_digits, digit_value_ten, hx, if_true, List.cons_append]
        rw [← hds]
      · intro c hc
        rcases List.mem_cons.1 hc with hc | hc
        · rw [hc]; exact hx
        · exact hall c hc
    · exact ⟨[], by simp [scan_digits, digit_value_ten, hx], by simp⟩

theorem scan_unsigned_body_split (neg : Bool) (body : List Char) (v : Nat) (rest : List Char)
    (h : scan_unsigned_body 10 neg body = scan_result.converted v rest) :
    ∃ ds : List Char, body = ds ++ rest ∧ ds ≠ [] ∧ ∀ c ∈ ds, isdigit c = true := by
  cases body with
  | nil => simp [scan_unsigned_body] at h
  | cons d cs =>
    have h16 : ¬ ((10 : Nat) = 16 ∧ d = '0'
        ∧ (cs.head? = some 'x' ∨ cs.head? = some 'X')) := by
      intro h; exact absurd h.1 (by decide)
    simp only [scan_unsigned_body, if_neg h16] at h
    by_cases hd : isdigit d = true
    · simp only [digit_value_ten d, hd, if_true, scan_result.converted.injEq] at h
      obtain ⟨ds, hds, hall⟩ := scan_digits_split (d :: cs) 0
      rw [h.2] at hds
      refine ⟨ds, hds, ?_, hall⟩
      intro hnil
      rw [hnil, List.nil_append] at hds
      have h2 := h.2
      rw [← hds] at h2
      simp only [scan_digits, digit_value_ten d, hd, if_true] at h2
      obtain ⟨ds2, hds2, _⟩ := scan_digits_split cs (0 * 10 + (d.toNat - 48))
      rw [h2] at hds2
      have := congrArg List.length hds2
      simp at this
      omega
    · simp [digit_value_ten d, hd] at h

theorem scan_unsigned_split (s : List Char) (v : Nat) (rest : List Char)
    (h : scan_unsigned 10 s = scan_result.converted v rest) :
    ∃ field : List Char, s = field ++ rest ∧ unsigned_field field := by
  obtain ⟨ws, hws, hall⟩ := skip_whitespace_split s
  unfold scan_unsigned at h
  cases hsk : skip_whitespace s with
  | nil => simp [hsk] at h
  | cons c cs =>
    rw [hsk] at h hws
    simp only at h
    by_cases hm : c = '-'
    · rw [if_pos hm] at h
      obtain ⟨ds, hds, hne, hdall⟩ := scan_unsigned_body_split true cs v rest h
      refine ⟨ws ++ ['-'] ++ ds, ?_, ws, ['-'], ds, rfl, hall, Or.inr (Or.inr rfl), hne, hdall⟩
      rw [hws, hm, hds]; simp
    · rw [if_neg hm] at h
      by_cases hp : c = '+'
      · rw [if_pos hp] at h
        obtain ⟨ds, hds, hne, hdall⟩ := scan_unsigned_body_split false cs v rest h
        refine ⟨ws ++ ['+'] ++ ds, ?_, ws, ['+'], ds, rfl, hall, Or.inr (Or.inl rfl), hne, hdall⟩
        rw [hws, hp, hds]; simp
      · rw [if_neg hp] at h
        obtain ⟨ds, hds, hne, hdall⟩ := scan_unsigned_body_split false (c :: cs) v rest h
        refine ⟨ws ++ [] ++ ds, ?_, ws, [], ds, rfl, hall, Or.inl rfl, hne, hdall⟩
        rw [hws, hds]; simp

theorem sscanf_lu_split (s : List Char) (h : ¬ (sscanf_lu s).1 < 1) :
    ∃ field rest : List Char, s = field ++ rest ∧ unsigned_field field := by
  obtain ⟨tail, ht⟩ := c_str_split s
  unfold sscanf_lu at h
  cases h1 : scan_unsigned 10 (c_str s) with
  | input_failure => simp [h1] at h
  | matching_failure => simp [h1] at h
  | converted x rest =>
    obtain ⟨f1, hf1, hu1⟩ := scan_unsigned_split _ _ _ h1
    refine ⟨f1, rest ++ tail, ?_, hu1⟩
    rw [← List.append_assoc, ← hf1]
    exact ht

theorem string_to_quicconnectionid_of_ok (maxlen : Nat) (buf : List Char) (nchars : Nat)
    (id : spindump_quic_connectionid) (h1 : nchars % 2 = 0) (h2 : nchars / 2 ≤ maxlen) :
    spindump_analyze_event_string_to_quicconnectionid maxlen buf nchars id
      = string_to_quicconnectionid_loop buf nchars
          { len := 0, id := List.replicate maxlen 0 } := by
  have h3 : ¬ nchars / 2 > maxlen := by omega
  simp [spindump_analyze_event_string_to_quicconnectionid, h1, h3]

theorem string_to_quicconnectionid_of_bad (maxlen : Nat) (buf : List Char) (nchars : Nat)
    (id : spindump_quic_connectionid) (h : nchars % 2 = 1 ∨ nchars / 2 > maxlen) :
    spindump_analyze_event_string_to_quicconnectionid maxlen buf nchars id = (0, id) := by
  unfold spindump_analyze_event_string_to_quicconnectionid
  rcases h with h | h
  · have : nchars % 2 ≠ 0 := by omega
    simp [this]
  · by_cases h1 : nchars % 2 ≠ 0
    · simp [h1]
    · simp [h1, h]

theorem c_str_drop (s : List Char) :
    ∀ k : Nat, k ≤ (c_str s).length → c_str (s.drop k) = (c_str s).drop k := by
  induction s with
  | nil => intro k _; simp [c_str]
  | cons x xs ih =>
    intro k hk
    cases k with
    | zero => rfl
    | succ k =>
      by_cases hx : x = '\x00'
      · simp [c_str, hx] at hk
      · simp only [c_str, if_neg hx, List.length_cons] at hk
        simp only [List.drop_succ_cons, c_str, if_neg hx]
        exact ih k (by omega)

theorem index_of_halves (session h1 h2 : List Char)
    (hs : c_str session = h1 ++ '-' :: h2) (hh : '-' ∉ h1) :
    index session '-' = some h1.length
      ∧ strlen (session.drop h1.length) - 1 = h2.length := by
  constructor
  · have hi : List.indexOf '-' (h1 ++ '-' :: h2) = h1.length := by
      rw [List.indexOf_append_of_not_mem hh, List.indexOf_cons_self]
      rfl
    simp only [index, hs, hi]
    simp
  · have hk : h1.length ≤ (c_str session).length := by
      rw [hs]; simp
    simp only [strlen, c_str_drop session h1.length hk, hs]
    simp

/-! ## QUIC connection id decode: the helper and the loop -/

theorem isxdigit_iff (c : Char) : isxdigit c = true ↔
    ((48 ≤ c.toNat ∧ c.toNat ≤ 57) ∨ (97 ≤ c.toNat ∧ c.toNat ≤ 102)
      ∨ (65 ≤ c.toNat ∧ c.toNat ≤ 70)) := by
  simp only [isxdigit, decide_eq_true_eq, char_le_iff]
  rfl

theorem xdigit_facts (c : Char) (h : isxdigit c = true) :
    digit_value 16 c = some ((digit_value 16 c).getD 0)
    ∧ (digit_value 16 c).getD 0 < 16
    ∧ (c ≠ '0' → 1 ≤ (digit_value 16 c).getD 0)
    ∧ isspace c = false ∧ c ≠ '-' ∧ c ≠ '+' ∧ c ≠ '\x00' ∧ c ≠ 'x' ∧ c ≠ 'X' := by
  have hr := (isxdigit_iff c).1 h
  obtain ⟨n, hn⟩ : ∃ n, c.toNat = n := ⟨_, rfl⟩
  have hc : c = Char.ofNat n := by rw [← hn, Char.ofNat_toNat]
  rw [hn] at hr
  rcases hr with ⟨h1, h2⟩ | ⟨h1, h2⟩ | ⟨h1, h2⟩ <;> interval_cases n <;> subst hc <;> decide

theorem digit_value_lt (base : Nat) (c : Char) (d : Nat) (h : digit_value base c = some d) :
    d < base := by
  unfold digit_value at h
  simp only at h
  split at h
  · split_ifs at h with hlt
    · cases h; exact hlt
  · cases h

theorem digit_value_not_nul (base : Nat) (d : Nat) :
    digit_value base '\x00' ≠ some d := by
  unfold digit_value
  simp only
  have h1 : ¬ ('0' ≤ '\x00' ∧ '\x00' ≤ '9') := by decide
  have h2 : ¬ ('a' ≤ '\x00' ∧ '\x00' ≤ 'z') := by decide
  have h3 : ¬ ('A' ≤ '\x00' ∧ '\x00' ≤ 'Z') := by decide
  simp [h1, h2, h3]

theorem strtoul_value_byte (v : Nat) (h : v ≤ 255) : strtoul_value false v = v := by
  have : ¬ v > ULONG_MAX := by simp only [ULONG_MAX]; omega
  simp [strtoul_value, this]

theorem sscanf_x_of_digit (ch1 ch2 : Char) (d1 : Nat)
    (hd : digit_value 16 ch1 = some d1) (hsp : isspace ch1 = false) (hm : ch1 ≠ '-')
    (hp : ch1 ≠ '+') (hnul : ch1 ≠ '\x00')
    (hx : ¬ (ch1 = '0' ∧ (ch2 = 'x' ∨ ch2 = 'X'))) :
    sscanf_x [ch1, ch2, '\x00']
      = (1, (match digit_value 16 ch2 with
              | some d2 => d1 * 16 + d2
              | none => d1)) := by
  have hd1 := digit_value_lt 16 ch1 d1 hd
  by_cases h2 : ch2 = '\x00'
  · subst h2
    have hv : digit_value 16 '\x00' = none := by
      cases hv : digit_value 16 '\x00' with
      | none => rfl
      | some d => exact absurd hv (digit_value_not_nul 16 d)
    have h16 : ¬ (ch1 = '0'
        ∧ (([] : List Char).head? = some 'x' ∨ ([] : List Char).head? = some 'X')) := by simp
    have hs : strtoul_value false d1 = d1 := strtoul_value_byte d1 (by omega)
    have hmod : d1 % (UINT_MAX + 1) = d1 := by simp only [UINT_MAX]; omega
    simp only [sscanf_x, c_str, if_neg hnul, if_true,
      scan_unsigned, skip_whitespace, hsp, if_neg hm, if_neg hp, scan_unsigned_body, true_and, if_neg h16,
      hd, scan_digits, hs, hv, Bool.false_eq_true, if_false, Nat.zero_mul, Nat.zero_add, hmod]
  · have h16 : ¬ (ch1 = '0'
        ∧ ([ch2].head? = some 'x' ∨ [ch2].head? = some 'X')) := by
      simp only [List.head?_cons, Option.some.injEq]
      exact hx
    cases hv : digit_value 16 ch2 with
    | none =>
      have hs : strtoul_value false d1 = d1 := strtoul_value_byte d1 (by omega)
      have hmod : d1 % (UINT_MAX + 1) = d1 := by simp only [UINT_MAX]; omega
      simp only [sscanf_x, c_str, if_neg hnul, if_neg h2, if_true,
        scan_unsigned, skip_whitespace, hsp, if_neg hm, if_neg hp, scan_unsigned_body,
        true_and, if_neg h16, hd, scan_digits, hs, hv, Bool.false_eq_true, if_false, Nat.zero_mul,
        Nat.zero_add, hmod]
    | some d2 =>
      have hd2 := digit_value_lt 16 ch2 d2 hv
      have hs : strtoul_value false (d1 * 16 + d2) = d1 * 16 + d2 :=
        strtoul_value_byte _ (by omega)
      have hmod : (d1 * 16 + d2) % (UINT_MAX + 1) = d1 * 16 + d2 := by
        simp only [UINT_MAX]; omega
      simp only [sscanf_x, c_str, if_neg hnul, if_neg h2, if_true,
        scan_unsigned, skip_whitespace, hsp, if_neg hm, if_neg hp, scan_unsigned_body,
        true_and, if_neg h16, hd, scan_digits, hs, hv, Bool.false_eq_true, if_false, Nat.zero_mul,
        Nat.zero_add, hmod]

theorem charbytetobyte_of_digit (ch1 ch2 : Char) (byte d1 : Nat)
    (hd : digit_value 16 ch1 = some d1) (hsp : isspace ch1 = false) (hm : ch1 ≠ '-')
    (hp : ch1 ≠ '+') (hnul : ch1 ≠ '\x00')
    (hx : ¬ (ch1 = '0' ∧ (ch2 = 'x' ∨ ch2 = 'X'))) :
    spindump_analyze_event_charbytetobyte ch1 ch2 byte
      = ((((match digit_value 16 ch2 with
            | some d2 => d1 * 16 + d2
            | none => d1) : Nat) : Int), byte) := by
  have hd1 := digit_value_lt 16 ch1 d1 hd
  have hscan := sscanf_x_of_digit ch1 ch2 d1 hd hsp hm hp hnul hx
  have hmod : (match digit_value 16 ch2 with
            | some d2 => d1 * 16 + d2
            | none => d1) % 256 = (match digit_value 16 ch2 with
            | some d2 => d1 * 16 + d2
            | none => d1) := by
    cases hv : digit_value 16 ch2 with
    | none =>
      show d1 % 256 = d1
      omega
    | some d2 =>
      have hd2 := digit_value_lt 16 ch2 d2 hv
      show (d1 * 16 + d2) % 256 = d1 * 16 + d2
      omega
  simp only [spindump_analyze_event_charbytetobyte, hscan, hmod]
  rfl

theorem getD_drop_two (buf : List Char) (k : Nat) :
    (buf.drop 2).getD k '\x00' = buf.getD (k + 2) '\x00' := by
  simp [List.getD_eq_getElem?_getD, List.getElem?_drop, Nat.add_comm]

theorem loop_zero (buf : List Char) (id : spindump_quic_connectionid) :
    string_to_quicconnectionid_loop buf 0 id = (1, id) := by
  simp [string_to_quicconnectionid_loop]

theorem loop_one (buf : List Char) (id : spindump_quic_connectionid) :
    string_to_quicconnectionid_loop buf 1 id = (1, id) := by
  simp [string_to_quicconnectionid_loop]

theorem loop_step (buf : List Char) (n : Nat) (id : spindump_quic_connectionid) :
    string_to_quicconnectionid_loop buf (n + 2) id
      = (if (spindump_analyze_event_charbytetobyte (buf.getD 0 '\x00')
              (buf.getD 1 '\x00') 0).1 = 0
         then (0, id)
         else string_to_quicconnectionid_loop (buf.drop 2) n { id with len := id.len + 1 }) := by
  simp [string_to_quicconnectionid_loop]

theorem loop_spec (n : Nat) :
    ∀ (buf : List Char) (id : spindump_quic_connectionid),
      ((string_to_quicconnectionid_loop buf n id).1 = 0
        ∨ (string_to_quicconnectionid_loop buf n id).1 = 1)
      ∧ ((string_to_quicconnectionid_loop buf n id).1 = 1
          ↔ ∀ i : Nat, i < n / 2 →
              (spindump_analyze_event_charbytetobyte (buf.getD (2 * i) '\x00')
                (buf.getD (2 * i + 1) '\x00') 0).1 ≠ 0)
      ∧ ((string_to_quicconnectionid_loop buf n id).1 = 1 →
          (string_to_quicconnectionid_loop buf n id).2
            = { len := id.len + n / 2, id := id.id }) := by
  induction n using Nat.strong_induction_on with
  | _ n ih =>
    intro buf id
    match n with
    | 0 => simp [loop_zero]
    | 1 => simp [loop_one]
    | m + 2 =>
      rw [loop_step]
      have hhalf : (m + 2) / 2 = m / 2 + 1 := by omega
      by_cases h : (spindump_analyze_event_charbytetobyte (buf.getD 0 '\x00')
          (buf.getD 1 '\x00') 0).1 = 0
      · rw [if_pos h]
        refine ⟨Or.inl rfl, ?_, ?_⟩
        · constructor
          · intro h1; exact absurd h1 (by simp)
          · intro hall
            exact absurd h (hall 0 (by omega))
        · intro h1; exact absurd h1 (by simp)
      · rw [if_neg h]
        obtain ⟨h01, hiff, hres⟩ := ih m (by omega) (buf.drop 2) { id with len := id.len + 1 }
        refine ⟨h01, ?_, ?_⟩
        · rw [hiff]
          constructor
          · intro hall i hi
            cases i with
            | zero => exact h
            | succ j =>
              have hj := hall j (by omega)
              rw [getD_drop_two, getD_drop_two] at hj
              have e1 : 2 * (j + 1) = 2 * j + 2 := by ring
              have e2 : 2 * j + 2 + 1 = 2 * j + 1 + 2 := by ring
              rw [e1, e2]
              exact hj
          · intro hall j hj
            have hj2 := hall (j + 1) (by omega)
            rw [getD_drop_two, getD_drop_two]
            have e1 : 2 * (j + 1) = 2 * j + 2 := by ring
            have e2 : 2 * j + 2 + 1 = 2 * j + 1 + 2 := by ring
            rw [e1, e2] at hj2
            exact hj2
        · intro h1
          rw [hres h1, hhalf]
          simp only [spindump_quic_connectionid.mk.injEq, and_true]
          omega

theorem string_to_quicconnectionid_spec (maxlen : Nat) (buf : List Char) (nchars : Nat)
    (id : spindump_quic_connectionid) :
    ((spindump_analyze_event_string_to_quicconnectionid maxlen buf nchars id).1 = 0
      ∨ (spindump_analyze_event_string_to_quicconnectionid maxlen buf nchars id).1 = 1)
    ∧ ((spindump_analyze_event_string_to_quicconnectionid maxlen buf nchars id).1 = 1
        ↔ (nchars % 2 = 0 ∧ nchars / 2 ≤ maxlen
            ∧ ∀ i : Nat, i < nchars / 2 →
                (spindump_analyze_event_charbytetobyte (buf.getD (2 * i) '\x00')
                  (buf.getD (2 * i + 1) '\x00') 0).1 ≠ 0))
    ∧ ((spindump_analyze_event_string_to_quicconnectionid maxlen buf nchars id).1 = 1 →
        (spindump_analyze_event_string_to_quicconnectionid maxlen buf nchars id).2
          = { len := nchars / 2, id := List.replicate maxlen 0 }) := by
  by_cases hbad : nchars % 2 = 1 ∨ nchars / 2 > maxlen
  · rw [string_to_quicconnectionid_of_bad maxlen buf nchars id hbad]
    refine ⟨Or.inl rfl, ?_, ?_⟩
    · constructor
      · intro h; exact absurd h (by simp)
      · intro h; rcases hbad with hb | hb <;> omega
    · intro h; exact absurd h (by simp)
  · have h1 : nchars % 2 = 0 := by omega
    have h2 : nchars / 2 ≤ maxlen := by omega
    rw [string_to_quicconnectionid_of_ok maxlen buf nchars id h1 h2]
    obtain ⟨h01, hiff, hres⟩ := loop_spec nchars buf { len := 0, id := List.replicate maxlen 0 }
    refine ⟨h01, ?_, ?_⟩
    · rw [hiff]
      exact ⟨fun h => ⟨h1, h2, h⟩, fun h => h.2.2⟩
    · intro h
      rw [hres h]
      simp

/-! ## Event processing: helper facts -/

theorem new_connection_eq {τ : Type} (ext : externals τ) (state : spindump_analyze τ)
    (event : spindump_event) (p_connection : Nat) :
    spindump_analyze_processevent_new_connection ext state event p_connection
      = (match create_request ext event with
         | none => (p_connection, state)
         | some call =>
           if (call_newconnection ext call state).1 ≠ 0 then
             ((call_newconnection ext call state).1,
              updateinfo_at ext (call_newconnection ext call state).2
                (call_newconnection ext call state).1 event)
           else call_newconnection ext call state) := by
  unfold spindump_analyze_processevent_new_connection create_request
  cases event.connectionType <;> simp only <;> split_ifs <;> simp_all

theorem null_or_pointer {α : Type} (r : Nat × α) :
    (if r.1 = 0 then (0, r.2) else (r.1, r.2)) = r := by
  by_cases h : r.1 = 0
  · rw [if_pos h]; exact Prod.ext h.symm rfl
  · rw [if_neg h]

theorem find_connection_eq {τ : Type} (ext : externals τ) (state : spindump_analyze τ)
    (event : spindump_event) :
    spindump_analyze_processevent_find_connection ext state event
      = (match search_request ext event with
         | none => (0, state)
         | some call => call_searchconnection ext call state) := by
  unfold spindump_analyze_processevent_find_connection search_request
  cases event.connectionType <;> simp only <;> split_ifs <;>
    first
      | rfl
      | simp only [null_or_pointer]
      | (rename_i h; exact Prod.ext h.symm rfl)

theorem updateinfo_at_trace {τ : Type} (ext : externals τ) (state : spindump_analyze τ)
    (connection : Nat) (event : spindump_event) :
    (updateinfo_at ext state connection event).trace = state.trace
      ∧ (updateinfo_at ext state connection event).table = state.table := by
  simp [updateinfo_at]

theorem processevent_of_find {τ : Type} (ext : externals τ) (state : spindump_analyze τ)
    (event : spindump_event) (h : event.eventType ∈ find_event_types) :
    spindump_analyze_processevent ext state event
      = (if (spindump_analyze_processevent_find_connection ext state event).1 = 0 then
           spindump_analyze_processevent_find_connection ext state event
         else if event.eventType = spindump_event_type.new_rtt_measurement then
           ((spindump_analyze_processevent_find_connection ext state event).1,
            call_newrttmeasurement ext
              (rtt_request ext event
                (spindump_analyze_processevent_find_connection ext state event).1)
              (updateinfo_at ext (spindump_analyze_processevent_find_connection ext state event).2
                (spindump_analyze_processevent_find_connection ext state event).1 event))
         else
           ((spindump_analyze_processevent_find_connection ext state event).1,
            updateinfo_at ext (spindump_analyze_processevent_find_connection ext state event).2
              (spindump_analyze_processevent_find_connection ext state event).1 event)) := by
  unfold spindump_analyze_processevent rtt_request
  cases hty : event.eventType <;> simp [find_event_types, hty] at h <;>
    simp only [spindump_analyze_processevent_change_connection,
      spindump_analyze_processevent_connection_delete,
      spindump_analyze_processevent_new_rtt_measurement,
      spindump_analyze_processevent_spin_flip,
      spindump_analyze_processevent_spin_value,
      spindump_analyze_processevent_ecn_congestion_event] <;>
    split_ifs <;> first | rfl | simp_all

theorem find_event_run {τ : Type} (ext : externals τ) (state : spindump_analyze τ)
    (event : spindump_event) (h : event.eventType ∈ find_event_types) :
    (search_request ext event = none
        ∧ spindump_analyze_processevent ext state event = (0, state))
    ∨ ∃ sc : search_call, search_request ext event = some sc
        ∧ (spindump_analyze_processevent ext state event).1
            = ext.searchconnection sc state.table state.heap
        ∧ ((spindump_analyze_processevent ext state event).2.trace
              = state.trace ++ [extern_call.search sc]
            ∨ ∃ rc : newrttmeasurement_call,
                (spindump_analyze_processevent ext state event).2.trace
                  = state.trace ++ [extern_call.search sc, extern_call.newrttmeasurement rc]) := by
  rw [processevent_of_find ext state event h, find_connection_eq]
  cases hreq : search_request ext event with
  | none => left; simp
  | some sc =>
    right
    refine ⟨sc, rfl, ?_⟩
    simp only
    by_cases h0 : (call_searchconnection ext sc state).1 = 0
    · rw [if_pos h0]
      exact ⟨rfl, Or.inl rfl⟩
    · rw [if_neg h0]
      by_cases h1 : event.eventType = spindump_event_type.new_rtt_measurement
      · rw [if_pos h1]
        refine ⟨rfl, Or.inr ⟨rtt_request ext event (call_searchconnection ext sc state).1, ?_⟩⟩
        simp only [call_newrttmeasurement, updateinfo_at, call_searchconnection,
          List.append_assoc, List.singleton_append]
      · rw [if_neg h1]
        refine ⟨rfl, Or.inl ?_⟩
        simp only [updateinfo_at, call_searchconnection]

theorem new_connection_run {τ : Type} (ext : externals τ) (state : spindump_analyze τ)
    (event : spindump_event) (h : event.eventType = spindump_event_type.new_connection) :
    (create_request ext event = none
        ∧ spindump_analyze_processevent ext state event = (0, state))
    ∨ ∃ c : create_call, create_request ext event = some c
        ∧ (spindump_analyze_processevent ext state event).1
            = (ext.newconnection c state.table state.heap).1
        ∧ (spindump_analyze_processevent ext state event).2.trace
            = state.trace ++ [extern_call.create c] := by
  unfold spindump_analyze_processevent
  simp only [h]
  rw [new_connection_eq]
  cases hreq : create_request ext event with
  | none => left; simp
  | some c =>
    right
    refine ⟨c, rfl, ?_⟩
    simp only
    split_ifs
    · exact ⟨rfl, by simp [updateinfo_at, call_newconnection]⟩
    · exact ⟨rfl, rfl⟩

theorem drop_own_length {α : Type} (a b : List α) : (a ++ b).drop a.length = b := by
  simp

theorem parsehostpair_aux (ishost : spindump_network → Int) (event : spindump_event) :
    (spindump_analyze_event_parsehostpair ishost event = 1
        ↔ (ishost event.initiatorAddress ≠ 0 ∧ ishost event.responderAddress ≠ 0))
    ∧ (spindump_analyze_event_parsehostpair ishost event = 0
        ↔ (ishost event.initiatorAddress = 0 ∨ ishost event.responderAddress = 0)) := by
  unfold spindump_analyze_event_parsehostpair
  by_cases h1 : ishost event.initiatorAddress = 0 <;>
    by_cases h2 : ishost event.responderAddress = 0 <;> simp [h1, h2]

theorem parseside1host_aux (ishost : spindump_network → Int) (event : spindump_event) :
    (spindump_analyze_event_parseside1host ishost event = 1
        ↔ ishost event.initiatorAddress ≠ 0)
    ∧ (spindump_analyze_event_parseside1host ishost event = 0
        ↔ ishost event.initiatorAddress = 0) := by
  unfold spindump_analyze_event_parseside1host
  by_cases h1 : ishost event.initiatorAddress = 0 <;> simp [h1]

theorem decode_fails_requests {τ : Type} (ext : externals τ) (event : spindump_event)
    (h : decode_fails ext event = true) :
    create_request ext event = none ∧ search_request ext event = none := by
  unfold decode_fails at h
  unfold create_request search_request
  cases hk : event.connectionType <;> simp only [hk] at h ⊢ <;>
    first
      | exact absurd h (by decide)
      | (simp only [decide_eq_true_eq] at h
         rcases h with h | h <;> simp [h])
      | (simp only [decide_eq_true_eq] at h
         simp [h])

theorem processevent_of_no_request {τ : Type} (ext : externals τ)
    (state : spindump_analyze τ) (event : spindump_event)
    (hc : create_request ext event = none) (hs : search_request ext event = none) :
    spindump_analyze_processevent ext state event = (0, state) := by
  by_cases hnew : event.eventType = spindump_event_type.new_connection
  · rcases new_connection_run ext state event hnew with ⟨_, h0⟩ | ⟨c, hreq, _, _⟩
    · exact h0
    · rw [hc] at hreq
      exact absurd hreq (by simp)
  · by_cases hfind : event.eventType ∈ find_event_types
    · rcases find_event_run ext state event hfind with ⟨_, h0⟩ | ⟨sc, hreq, _, _⟩
      · exact h0
      · rw [hs] at hreq
        exact absurd hreq (by simp)
    · unfold spindump_analyze_processevent
      cases hty : event.eventType <;> simp_all [find_event_types]

/-! ## State merge (`spindump_analyze_event_updateinfo`) -/

theorem updateinfo_counters_aux (conv : Nat → timeval) (c : spindump_connection)
    (e : spindump_event) :
    (spindump_analyze_event_updateinfo conv c e).packetsFromSide1 = e.packetsFromSide1
    ∧ (spindump_analyze_event_updateinfo conv c e).packetsFromSide2 = e.packetsFromSide2
    ∧ (spindump_analyze_event_updateinfo conv c e).bytesFromSide1 = e.bytesFromSide1
    ∧ (spindump_analyze_event_updateinfo conv c e).bytesFromSide2 = e.bytesFromSide2 := by
  simp [spindump_analyze_event_updateinfo]

theorem updateinfo_latest_aux (conv : Nat → timeval) (c : spindump_connection)
    (e : spindump_event) :
    (spindump_analyze_event_updateinfo conv c e).latestPacketFromSide1
        = (if c.packetsFromSide1 < e.packetsFromSide1 then conv e.timestamp
           else c.latestPacketFromSide1)
    ∧ (spindump_analyze_event_updateinfo conv c e).latestPacketFromSide2
        = (if c.packetsFromSide2 < e.packetsFromSide2 then conv e.timestamp
           else c.latestPacketFromSide2) := by
  unfold spindump_analyze_event_updateinfo
  by_cases h1 : c.packetsFromSide1 < e.packetsFromSide1 <;>
    by_cases h2 : c.packetsFromSide2 < e.packetsFromSide2 <;> simp [h1, h2]


theorem updateinfo_at_counters {τ : Type} (ext : externals τ) (state : spindump_analyze τ)
    (connection : Nat) (event : spindump_event) :
    connection_counters ((updateinfo_at ext state connection event).heap connection)
      = event_counters event := by
  have hc := updateinfo_counters_aux ext.spindump_timestamp_to_timeval
    (state.heap connection) event
  simp only [updateinfo_at, if_true, connection_counters, event_counters, hc.1, hc.2.1,
    hc.2.2.1, hc.2.2.2]

theorem requests_eventType {τ : Type} (ext : externals τ) (event : spindump_event)
    (t : spindump_event_type) :
    create_request ext { event with eventType := t } = create_request ext event
    ∧ search_request ext { event with eventType := t } = search_request ext event :=
  ⟨rfl, rfl⟩

theorem quic_requests_aux {τ : Type} (ext : externals τ) (event : spindump_event)
    (c1 c2 : spindump_quic_connectionid)
    (hkind : event.connectionType = spindump_connection_type.transport_quic)
    (hhost1 : ext.spindump_network_ishost event.initiatorAddress ≠ 0)
    (hhost2 : ext.spindump_network_ishost event.responderAddress ≠ 0)
    (hcid : spindump_analyze_event_parsecidpair ext.spindump_connection_quic_cid_maxlen event
        { len := 0, id := [] } { len := 0, id := [] } = (1, c1, c2)) :
    create_request ext event
        = some (create_call.newconnection_quic_5tupleandcids event.initiatorAddress.address
            event.responderAddress.address 0 0 c2 c1
            (ext.spindump_timestamp_to_timeval event.timestamp))
    ∧ search_request ext event = some (search_call.searchconnection_quic_cids c1 c2) := by
  have hhp : ¬ spindump_analyze_event_parsehostpair ext.spindump_network_ishost event = 0 := by
    intro h0
    rcases (parsehostpair_aux _ event).2.1 h0 with h | h
    · exact hhost1 h
    · exact hhost2 h
  constructor
  · unfold create_request
    simp [hkind, hhp, hcid]
  · unfold search_request
    simp [hkind, hhp, hcid]

theorem find_connection_trace {τ : Type} (ext : externals τ) (state : spindump_analyze τ)
    (event : spindump_event) :
    ∃ l : List extern_call,
      (spindump_analyze_processevent_find_connection ext state event).2.trace
          = state.trace ++ l
      ∧ rtt_call_count l = 0
      ∧ ((spindump_analyze_processevent_find_connection ext state event).1 ≠ 0 ↔
          ∃ sc : search_call, search_request ext event = some sc
            ∧ ext.searchconnection sc state.table state.heap ≠ 0) := by
  rw [find_connection_eq]
  cases hreq : search_request ext event with
  | none => exact ⟨[], by simp, rfl, by simp⟩
  | some sc =>
    refine ⟨[extern_call.search sc], rfl, rfl, ?_⟩
    simp [call_searchconnection]

/-- C1. After the merge, each side's latest-packet time is the converted time stamp of
the event when the event's packet counter for that side is strictly greater than the
counter stored before the merge, and is the old time otherwise; stored `5` against
event `5` keeps the time, event `6` advances it. -/
theorem updateinfo_latestPacket (conv : Nat → timeval) (c : spindump_connection)
    (e : spindump_event) :
    (spindump_analyze_event_updateinfo conv c e).latestPacketFromSide1
        = (if c.packetsFromSide1 < e.packetsFromSide1 then conv e.timestamp
           else c.latestPacketFromSide1)
    ∧ (spindump_analyze_event_updateinfo conv c e).latestPacketFromSide2
        = (if c.packetsFromSide2 < e.packetsFromSide2 then conv e.timestamp
           else c.latestPacketFromSide2)
    ∧ (spindump_analyze_event_updateinfo conv sample_connection
          (sample_event "443:51000" 9000000 5)).latestPacketFromSide1
        = sample_connection.latestPacketFromSide1
    ∧ (spindump_analyze_event_updateinfo conv sample_connection
          (sample_event "443:51000" 9000000 6)).latestPacketFromSide1
        = conv 9000000 := by
  refine ⟨?_, ?_, ?_, ?_⟩
  · unfold spindump_analyze_event_updateinfo
    by_cases h1 : c.packetsFromSide1 < e.packetsFromSide1 <;>
      by_cases h2 : c.packetsFromSide2 < e.packetsFromSide2 <;> simp [h1, h2]
  · unfold spindump_analyze_event_updateinfo
    by_cases h1 : c.packetsFromSide1 < e.packetsFromSide1 <;>
      by_cases h2 : c.packetsFromSide2 < e.packetsFromSide2 <;> simp [h1, h2]
  · simp [spindump_analyze_event_updateinfo, sample_connection, sample_event]
  · simp [spindump_analyze_event_updateinfo, sample_connection, sample_event]

/-- C2. After the merge the four packet and byte counters of the connection are the
event's four values, whatever was stored before (also when the event's are smaller). -/
theorem updateinfo_counters (conv : Nat → timeval) (c : spindump_connection)
    (e : spindump_event) :
    (spindump_analyze_event_updateinfo conv c e).packetsFromSide1 = e.packetsFromSide1
    ∧ (spindump_analyze_event_updateinfo conv c e).packetsFromSide2 = e.packetsFromSide2
    ∧ (spindump_analyze_event_updateinfo conv c e).bytesFromSide1 = e.bytesFromSide1
    ∧ (spindump_analyze_event_updateinfo conv c e).bytesFromSide2 = e.bytesFromSide2 := by
  simp [spindump_analyze_event_updateinfo]

/-- C3, as stated, fails. Merging an event whose side 1 packet counter is `3` into a
connection that stores `5` lowers the counter to `3`; merging an event with packet
counter `6` and time stamp 1 s into a connection whose latest side 1 packet is at 2 s
moves that time back to 1 s. -/
theorem updateinfo_moves_backward :
    (spindump_analyze_event_updateinfo sample_timestamp_to_timeval sample_connection
        (sample_event "443:51000" 9000000 3)).packetsFromSide1
      < sample_connection.packetsFromSide1
    ∧ ¬ timeval_le sample_connection.latestPacketFromSide1
        (spindump_analyze_event_updateinfo sample_timestamp_to_timeval sample_connection
          (sample_event "443:51000" 1000000 6)).latestPacketFromSide1 := by
  constructor
  · simp [spindump_analyze_event_updateinfo, sample_connection, sample_event]
  · simp [spindump_analyze_event_updateinfo, sample_connection, sample_event,
      sample_timestamp_to_timeval, timeval_le]

/-- C3, amended. When each of the event's four counters is at least the stored one and
the event's converted time stamp is not before the two stored latest-packet times, the
four counters and the two latest-packet times after the merge are each at least their
values before it. -/
theorem updateinfo_monotone (conv : Nat → timeval) (c : spindump_connection)
    (e : spindump_event)
    (hp1 : c.packetsFromSide1 ≤ e.packetsFromSide1)
    (hp2 : c.packetsFromSide2 ≤ e.packetsFromSide2)
    (hb1 : c.bytesFromSide1 ≤ e.bytesFromSide1)
    (hb2 : c.bytesFromSide2 ≤ e.bytesFromSide2)
    (ht1 : timeval_le c.latestPacketFromSide1 (conv e.timestamp))
    (ht2 : timeval_le c.latestPacketFromSide2 (conv e.timestamp)) :
    c.packetsFromSide1 ≤ (spindump_analyze_event_updateinfo conv c e).packetsFromSide1
    ∧ c.packetsFromSide2 ≤ (spindump_analyze_event_updateinfo conv c e).packetsFromSide2
    ∧ c.bytesFromSide1 ≤ (spindump_analyze_event_updateinfo conv c e).bytesFromSide1
    ∧ c.bytesFromSide2 ≤ (spindump_analyze_event_updateinfo conv c e).bytesFromSide2
    ∧ timeval_le c.latestPacketFromSide1
        (spindump_analyze_event_updateinfo conv c e).latestPacketFromSide1
    ∧ timeval_le c.latestPacketFromSide2
        (spindump_analyze_event_updateinfo conv c e).latestPacketFromSide2 := by
  have hrefl : ∀ t : timeval, timeval_le t t := fun t => Or.inr ⟨rfl, le_refl _⟩
  have hc := updateinfo_counters_aux conv c e
  have hl := updateinfo_latest_aux conv c e
  rw [hc.1, hc.2.1, hc.2.2.1, hc.2.2.2, hl.1, hl.2]
  refine ⟨hp1, hp2, hb1, hb2, ?_, ?_⟩
  · split
    · exact ht1
    · exact hrefl _
  · split
    · exact ht2
    · exact hrefl _

/-- Instance of `updateinfo_monotone`: stored counters `5, 5, 500, 500` and latest
times 2 s, event counters `6, 5, 600, 600` at 9 s. -/
theorem updateinfo_monotone_witness :
    sample_connection.packetsFromSide1
        ≤ (spindump_analyze_event_updateinfo sample_timestamp_to_timeval sample_connection
            (sample_event "443:51000" 9000000 6)).packetsFromSide1
    ∧ timeval_le sample_connection.latestPacketFromSide1
        (spindump_analyze_event_updateinfo sample_timestamp_to_timeval sample_connection
          (sample_event "443:51000" 9000000 6)).latestPacketFromSide1 :=
  have h := updateinfo_monotone sample_timestamp_to_timeval sample_connection
    (sample_event "443:51000" 9000000 6) (by decide) (by decide) (by decide) (by decide)
    (by decide) (by decide)
  ⟨h.1, h.2.2.2.2.1⟩

/-! ## Port-pair decode (`spindump_analyze_event_parseportpair`) -/

/-- C4. For all `a` and `b` in `[0, 65535]`, when the session text is the decimal
rendering of `a`, a colon and the decimal rendering of `b`, the port-pair decode
returns `1` and stores `a` and `b` in the two output ports. -/
theorem parseportpair_decimal (a b : Nat) (ha : a ≤ 65535) (hb : b ≤ 65535)
    (event : spindump_event)
    (hs : event.session = (toString a ++ ":" ++ toString b).toList)
    (p_side1port p_side2port : Nat) :
    spindump_analyze_event_parseportpair event p_side1port p_side2port = (1, a, b) := by
  obtain ⟨hne1, hd1, hv1⟩ := toString_numeral a
  obtain ⟨hne2, hd2, hv2⟩ := toString_numeral b
  have hs2 : event.session = (toString a).toList ++ ':' :: (toString b).toList := by
    rw [hs]; simp [String.toList]
  have hscan := sscanf_lu_colon_lu_numerals _ _ hne1 hne2 hd1 hd2
  rw [hv1, hv2, strtoul_value_small a ha, strtoul_value_small b hb] at hscan
  have hx : ¬ (a > 65535 ∨ b > 65535) := by omega
  have ha2 : a % 65536 = a := Nat.mod_eq_of_lt (by omega)
  have hb2 : b % 65536 = b := Nat.mod_eq_of_lt (by omega)
  simp only [spindump_analyze_event_parseportpair, hs2, hscan]
  simp [hx, ha2, hb2]

/-- Instance of `parseportpair_decimal`: the session text `443:51000` decodes to the
ports `443` and `51000`. -/
theorem parseportpair_decimal_witness :
    spindump_analyze_event_parseportpair (sample_event "443:51000" 0 0) 7 8
      = (1, 443, 51000) :=
  parseportpair_decimal 443 51000 (by decide) (by decide) (sample_event "443:51000" 0 0)
    (by decide) 7 8

/-- C5. For every session text made of a decimal numeral, a colon and a decimal
numeral, where the first or the second number exceeds `65535`, the port-pair decode
returns `0` and leaves both output ports as they were (no value is cut to 16 bits). -/
theorem parseportpair_out_of_range (d1 d2 : List Char) (hne1 : d1 ≠ []) (hne2 : d2 ≠ [])
    (hd1 : ∀ c ∈ d1, isdigit c = true) (hd2 : ∀ c ∈ d2, isdigit c = true)
    (hbig : decimal_value d1 > 65535 ∨ decimal_value d2 > 65535)
    (event : spindump_event) (hs : event.session = d1 ++ ':' :: d2)
    (p_side1port p_side2port : Nat) :
    spindump_analyze_event_parseportpair event p_side1port p_side2port
      = (0, p_side1port, p_side2port) := by
  have hscan := sscanf_lu_colon_lu_numerals d1 d2 hne1 hne2 hd1 hd2
  have hx : strtoul_value false (decimal_value d1) > 65535
      ∨ strtoul_value false (decimal_value d2) > 65535 := by
    rcases hbig with h | h
    · exact Or.inl (strtoul_value_large _ h)
    · exact Or.inr (strtoul_value_large _ h)
  simp only [spindump_analyze_event_parseportpair, hs, hscan]
  simp [hx]

/-- Instance of `parseportpair_out_of_range`: the session text `65979:51000`, whose
first number is `65536 + 443`, is refused and the output ports keep `7` and `8`. -/
theorem parseportpair_out_of_range_witness :
    decimal_value "65979".toList = 65979
    ∧ spindump_analyze_event_parseportpair (sample_event "65979:51000" 0 0) 7 8
        = (0, 7, 8) :=
  ⟨by decide,
   parseportpair_out_of_range "65979".toList "51000".toList (by decide) (by decide)
    (by decide) (by decide) (by decide) (sample_event "65979:51000" 0 0) (by decide) 7 8⟩

/-- C7 fails on the code. The text `ab12` is four hexadecimal digits that denote the
bytes `0xab, 0x12`; the decode returns `1` with length `2` (when two bytes fit) and an
id array of zeros, since the parsed byte is never stored. Through the pair decode,
the session `ab12-cd34ef` gives two ids of lengths `2` and `3` whose bytes are all
zero, and the even-length hexadecimal text `00` is refused. -/
theorem string_to_quicconnectionid_drops_bytes (maxlen : Nat) (id : spindump_quic_connectionid) :
    hex_bytes "ab12".toList = [0xab, 0x12]
    ∧ spindump_analyze_event_string_to_quicconnectionid maxlen "ab12".toList 4 id
        = (if 2 > maxlen then (0, id)
           else (1, { len := 2, id := List.replicate maxlen 0 }))
    ∧ spindump_analyze_event_parsecidpair 18 (sample_event "ab12-cd34ef" 0 0) id id
        = (1, { len := 2, id := List.replicate 18 0 }, { len := 3, id := List.replicate 18 0 })
    ∧ (spindump_analyze_event_string_to_quicconnectionid 18 "00".toList 2 id).1 = 0 := by
  refine ⟨by decide, ?_, ?_, ?_⟩
  · by_cases h : 2 > maxlen
    · simp [spindump_analyze_event_string_to_quicconnectionid, h]
    · have h1 : (spindump_analyze_event_charbytetobyte 'a' 'b' 0).1 ≠ 0 := by decide
      have h2 : (spindump_analyze_event_charbytetobyte '1' '2' 0).1 ≠ 0 := by decide
      simp [spindump_analyze_event_string_to_quicconnectionid, h,
        string_to_quicconnectionid_loop, h1, h2]
  · have hidx : index (sample_event "ab12-cd34ef" 0 0).session '-' = some 4 := by decide
    have e1 := string_to_quicconnectionid_of_ok 18 (sample_event "ab12-cd34ef" 0 0).session
      (4 % (UINT_MAX + 1)) id (by decide) (by decide)
    have e2 := string_to_quicconnectionid_of_ok 18
      ((sample_event "ab12-cd34ef" 0 0).session.drop (4 + 1))
      ((strlen ((sample_event "ab12-cd34ef" 0 0).session.drop 4) - 1) % (UINT_MAX + 1)) id
      (by decide) (by decide)
    have l1 : string_to_quicconnectionid_loop (sample_event "ab12-cd34ef" 0 0).session
        (4 % (UINT_MAX + 1)) { len := 0, id := List.replicate 18 0 }
        = (1, { len := 2, id := List.replicate 18 0 }) := by decide
    have l2 : string_to_quicconnectionid_loop
        ((sample_event "ab12-cd34ef" 0 0).session.drop (4 + 1))
        ((strlen ((sample_event "ab12-cd34ef" 0 0).session.drop 4) - 1) % (UINT_MAX + 1))
        { len := 0, id := List.replicate 18 0 }
        = (1, { len := 3, id := List.replicate 18 0 }) := by decide
    simp only [spindump_analyze_event_parsecidpair, hidx, e1, e2, l1, l2]
    simp
  · have h0 : (spindump_analyze_event_charbytetobyte '0' '0' 0).1 = 0 := by decide
    simp [spindump_analyze_event_string_to_quicconnectionid, string_to_quicconnectionid_loop,
      h0]

/-- C8. The connection id decode returns `0` whenever the character count is odd or
half of it exceeds `spindump_connection_quic_cid_maxlen`, whatever the buffer holds;
hence the pair decode returns `0` whenever the part of the session text before the
first hyphen, or the part after it, has odd length or more than twice that many
characters (the session text being shorter than `2 ^ 32` characters). -/
theorem cid_length_checks (maxlen : Nat) (buf : List Char) (nchars : Nat)
    (id : spindump_quic_connectionid) (event : spindump_event) (h1 h2 : List Char)
    (p_side1cid p_side2cid : spindump_quic_connectionid) :
    ((nchars % 2 = 1 ∨ nchars / 2 > maxlen) →
      (spindump_analyze_event_string_to_quicconnectionid maxlen buf nchars id).1 = 0)
    ∧ (c_str event.session = h1 ++ '-' :: h2 → '-' ∉ h1 →
        h1.length + 1 + h2.length < 2 ^ 32 →
        (h1.length % 2 = 1 ∨ h1.length / 2 > maxlen
          ∨ h2.length % 2 = 1 ∨ h2.length / 2 > maxlen) →
        (spindump_analyze_event_parsecidpair maxlen event p_side1cid p_side2cid).1 = 0) := by
  constructor
  · intro h
    rw [string_to_quicconnectionid_of_bad maxlen buf nchars id h]
  · intro hs hh hlen hbad
    obtain ⟨hidx, hstr⟩ := index_of_halves event.session h1 h2 hs hh
    have hm1 : h1.length % (UINT_MAX + 1) = h1.length :=
      Nat.mod_eq_of_lt (by simp only [UINT_MAX]; omega)
    have hm2 : h2.length % (UINT_MAX + 1) = h2.length :=
      Nat.mod_eq_of_lt (by simp only [UINT_MAX]; omega)
    simp only [spindump_analyze_event_parsecidpair, hidx, hstr, hm1, hm2]
    split
    · rfl
    · split
      · rfl
      · rename_i hn1 hn2
        exfalso
        rcases hbad with hb | hb | hb | hb
        · exact hn1 (by rw [string_to_quicconnectionid_of_bad maxlen _ _ _ (Or.inl hb)])
        · exact hn1 (by rw [string_to_quicconnectionid_of_bad maxlen _ _ _ (Or.inr hb)])
        · exact hn2 (by rw [string_to_quicconnectionid_of_bad maxlen _ _ _ (Or.inl hb)])
        · exact hn2 (by rw [string_to_quicconnectionid_of_bad maxlen _ _ _ (Or.inr hb)])

/-- Instance of `cid_length_checks`: three characters are refused, and so is the
session `ab12-cd3`, whose second half has three characters. -/
theorem cid_length_checks_witness :
    (spindump_analyze_event_string_to_quicconnectionid 18 "abc".toList 3
        { len := 0, id := [] }).1 = 0
    ∧ (spindump_analyze_event_parsecidpair 18 (sample_event "ab12-cd3" 0 0)
        { len := 0, id := [] } { len := 0, id := [] }).1 = 0 :=
  ⟨(cid_length_checks 18 "abc".toList 3 { len := 0, id := [] } (sample_event "ab12-cd3" 0 0)
      "ab12".toList "cd3".toList { len := 0, id := [] } { len := 0, id := [] }).1
      (Or.inl (by decide)),
   (cid_length_checks 18 "abc".toList 3 { len := 0, id := [] } (sample_event "ab12-cd3" 0 0)
      "ab12".toList "cd3".toList { len := 0, id := [] } { len := 0, id := [] }).2
      (by decide) (by decide) (by decide) (Or.inr (Or.inr (Or.inl (by decide))))⟩

/-- C9 fails on the code. The two-character texts `1g`, `c-` and ` 1` each hold a
character that is no hexadecimal digit, and the decode accepts each of them (result
`1`, length `1`) whenever one byte fits. -/
theorem string_to_quicconnectionid_accepts_non_hex (maxlen : Nat)
    (id : spindump_quic_connectionid) :
    isxdigit 'g' = false ∧ isxdigit '-' = false ∧ isxdigit ' ' = false
    ∧ spindump_analyze_event_string_to_quicconnectionid maxlen "1g".toList 2 id
        = (if 1 > maxlen then (0, id) else (1, { len := 1, id := List.replicate maxlen 0 }))
    ∧ spindump_analyze_event_string_to_quicconnectionid maxlen "c-".toList 2 id
        = (if 1 > maxlen then (0, id) else (1, { len := 1, id := List.replicate maxlen 0 }))
    ∧ spindump_analyze_event_string_to_quicconnectionid maxlen " 1".toList 2 id
        = (if 1 > maxlen then (0, id) else (1, { len := 1, id := List.replicate maxlen 0 })) := by
  have h1 : (spindump_analyze_event_charbytetobyte '1' 'g' 0).1 ≠ 0 := by decide
  have h2 : (spindump_analyze_event_charbytetobyte 'c' '-' 0).1 ≠ 0 := by decide
  have h3 : (spindump_analyze_event_charbytetobyte ' ' '1' 0).1 ≠ 0 := by decide
  refine ⟨by decide, by decide, by decide, ?_, ?_, ?_⟩ <;>
  · by_cases h : 1 > maxlen
    · simp [spindump_analyze_event_string_to_quicconnectionid, h]
    · simp [spindump_analyze_event_string_to_quicconnectionid, h,
        string_to_quicconnectionid_loop, h1, h2, h3]

/-! ## ICMP identifier decode (`spindump_analyze_event_parseicmpsessionid`) -/

/-- C10, as stated, fails. The texts `12abc` and ` +12` are not a single unsigned
integer, and the ICMP identifier decode succeeds on both with `peerId = 12`. -/
theorem parseicmpsessionid_accepts_malformed :
    matches_uint "12abc".toList = false
    ∧ spindump_analyze_event_parseicmpsessionid (sample_event "12abc" 0 0) 7 = (1, 12)
    ∧ matches_uint " +12".toList = false
    ∧ spindump_analyze_event_parseicmpsessionid (sample_event " +12" 0 0) 7 = (1, 12) := by
  decide

/-- C10, amended. When the session text is the decimal rendering of `x`, the ICMP
identifier decode returns `1` with `peerId = x` if `x ≤ 65535` and returns `0` if
`x > 65535`. In general the decode returns `0` or `1`; every failure leaves `peerId`
as it was; and it succeeds only on text that begins with optional white space, an
optional sign and one or more decimal digits, whatever follows that number. -/
theorem parseicmpsessionid_decimal (x : Nat) (event : spindump_event) (p_peerId : Nat) :
    (event.session = (toString x).toList → x ≤ 65535 →
      spindump_analyze_event_parseicmpsessionid event p_peerId = (1, x))
    ∧ (event.session = (toString x).toList → x > 65535 →
      spindump_analyze_event_parseicmpsessionid event p_peerId = (0, p_peerId))
    ∧ ((spindump_analyze_event_parseicmpsessionid event p_peerId).1 = 0
        ∨ (spindump_analyze_event_parseicmpsessionid event p_peerId).1 = 1)
    ∧ ((spindump_analyze_event_parseicmpsessionid event p_peerId).1 = 0 →
        (spindump_analyze_event_parseicmpsessionid event p_peerId).2 = p_peerId)
    ∧ ((spindump_analyze_event_parseicmpsessionid event p_peerId).1 = 1 →
        ∃ field rest : List Char, event.session = field ++ rest ∧ unsigned_field field) := by
  obtain ⟨hne, hd, hv⟩ := toString_numeral x
  have hscan := sscanf_lu_numeral _ hne hd
  rw [hv] at hscan
  refine ⟨?_, ?_, ?_, ?_, ?_⟩
  · intro hs hx
    have hx2 : x % 65536 = x := Nat.mod_eq_of_lt (by omega)
    have hx3 : ¬ x > 65535 := by omega
    simp only [spindump_analyze_event_parseicmpsessionid, hs, hscan,
      strtoul_value_small x hx]
    simp [hx3, hx2]
  · intro hs hx
    have hx2 := strtoul_value_large x hx
    simp only [spindump_analyze_event_parseicmpsessionid, hs, hscan]
    simp [hx2]
  · simp only [spindump_analyze_event_parseicmpsessionid]
    split <;> (try split) <;> simp
  · simp only [spindump_analyze_event_parseicmpsessionid]
    split <;> (try split) <;> simp
  · intro h
    by_cases hn : (sscanf_lu event.session).1 < 1
    · simp [spindump_analyze_event_parseicmpsessionid, hn] at h
    · exact sscanf_lu_split _ hn

/-- Instance of `parseicmpsessionid_decimal`: `4660` decodes to `4660`, `65536` is
refused with `peerId` kept, and the accepted text `12abc` begins with a number. -/
theorem parseicmpsessionid_decimal_witness :
    spindump_analyze_event_parseicmpsessionid (sample_event "4660" 0 0) 7 = (1, 4660)
    ∧ spindump_analyze_event_parseicmpsessionid (sample_event "65536" 0 0) 7 = (0, 7)
    ∧ (∃ field rest : List Char,
        (sample_event "12abc" 0 0).session = field ++ rest ∧ unsigned_field field) :=
  ⟨(parseicmpsessionid_decimal 4660 (sample_event "4660" 0 0) 7).1 (by decide) (by decide),
   (parseicmpsessionid_decimal 65536 (sample_event "65536" 0 0) 7).2.1 (by decide)
      (by decide),
   (parseicmpsessionid_decimal 0 (sample_event "12abc" 0 0) 7).2.2.2.2 (by decide)⟩

/-! ## Address-shape validation -/

/-- C11. The host-pair validation returns `1` if and only if both the initiator and
the responder address denote a single host, and returns `0` if and only if at least
one of the two does not. -/
theorem parsehostpair_iff (spindump_network_ishost : spindump_network → Int)
    (event : spindump_event) :
    (spindump_analyze_event_parsehostpair spindump_network_ishost event = 1
        ↔ (spindump_network_ishost event.initiatorAddress ≠ 0
            ∧ spindump_network_ishost event.responderAddress ≠ 0))
    ∧ (spindump_analyze_event_parsehostpair spindump_network_ishost event = 0
        ↔ (spindump_network_ishost event.initiatorAddress = 0
            ∨ spindump_network_ishost event.responderAddress = 0))
    ∧ (spindump_analyze_event_parsehostpair spindump_network_ishost event = 0
        ∨ spindump_analyze_event_parsehostpair spindump_network_ishost event = 1) := by
  refine ⟨(parsehostpair_aux _ event).1, (parsehostpair_aux _ event).2, ?_⟩
  unfold spindump_analyze_event_parsehostpair
  simp only
  split_ifs <;> simp

/-- C12. The side 1 host validation returns `1` if and only if the initiator address
denotes a single host and `0` otherwise; changing the responder address or the session
text of the event does not change the result. -/
theorem parseside1host_iff (spindump_network_ishost : spindump_network → Int)
    (event : spindump_event) (responderAddress : spindump_network) (session : List Char) :
    (spindump_analyze_event_parseside1host spindump_network_ishost event = 1
        ↔ spindump_network_ishost event.initiatorAddress ≠ 0)
    ∧ (spindump_analyze_event_parseside1host spindump_network_ishost event = 0
        ↔ spindump_network_ishost event.initiatorAddress = 0)
    ∧ spindump_analyze_event_parseside1host spindump_network_ishost
        { event with responderAddress := responderAddress, session := session }
        = spindump_analyze_event_parseside1host spindump_network_ishost event :=
  ⟨(parseside1host_aux _ event).1, (parseside1host_aux _ event).2, rfl⟩

/-! ## RTT reconciliation (`spindump_analyze_processevent_new_rtt_measurement`) -/

/-- C13. For an event time stamp `t` that fits `unsigned long long` and any RTT `r`, the
earlier time stamp is `t - r` when `r ≤ t` and `0` when `r > t`: the subtraction never
wraps around, the result is at most `t`, and `t` minus the result is `min r t`. -/
theorem timestampEarlier_spec (t r : Nat) (ht : t < 2 ^ 64) :
    timestampEarlier t r = (if r ≤ t then t - r else 0)
    ∧ timestampEarlier t r ≤ t
    ∧ t - timestampEarlier t r = min r t := by
  unfold timestampEarlier
  by_cases h : r ≤ t
  · have e : (t + 2 ^ 64 - r) % 2 ^ 64 = t - r := by
      have e1 : t + 2 ^ 64 - r = (t - r) + 2 ^ 64 := by omega
      rw [e1, Nat.add_mod_right]
      exact Nat.mod_eq_of_lt (by omega)
    simp only [ge_iff_le, h, if_true, e]
    refine ⟨trivial, by omega, ?_⟩
    rw [Nat.min_eq_left h]
    omega
  · simp only [ge_iff_le, h, if_false]
    refine ⟨trivial, by omega, ?_⟩
    rw [Nat.min_eq_right (by omega)]
    omega

/-- Instance of `timestampEarlier_spec`: time stamp `1000` with RTT `300` gives `700`,
and with RTT `1500` gives `0`. -/
theorem timestampEarlier_spec_witness :
    timestampEarlier 1000 300 = 700 ∧ timestampEarlier 1000 1500 = 0 :=
  ⟨(timestampEarlier_spec 1000 300 (by norm_num)).1,
   (timestampEarlier_spec 1000 1500 (by norm_num)).1⟩

/-- C14. For every new-rtt-measurement event whose search call returns a connection, the
calls made are that search and then one call of the RTT aggregator with packet `0`, the
found connection, `right = 1` exactly for direction from-responder (else `0`),
`unidirectional = 1` exactly for a unidirectional measurement (else `0`), `sent` the
converted earlier time stamp, `rcvd` the converted event time stamp and the label
`remote update`; the found connection is returned. -/
theorem rtt_forwarding {τ : Type} (ext : externals τ) (state : spindump_analyze τ)
    (event : spindump_event) (sc : search_call)
    (htype : event.eventType = spindump_event_type.new_rtt_measurement)
    (hreq : search_request ext event = some sc)
    (hfound : ext.searchconnection sc state.table state.heap ≠ 0) :
    (spindump_analyze_processevent ext state event).1
        = ext.searchconnection sc state.table state.heap
    ∧ calls_made ext state event
        = [extern_call.search sc,
           extern_call.newrttmeasurement
             { packet := 0,
               connection := ext.searchconnection sc state.table state.heap,
               right :=
                 if event.newRttMeasurement.direction = spindump_direction.fromresponder
                 then 1 else 0,
               unidirectional :=
                 if event.newRttMeasurement.measurement
                     = spindump_measurement_type.unidirectional then 1 else 0,
               sent := ext.spindump_timestamp_to_timeval
                 (timestampEarlier event.timestamp event.newRttMeasurement.rtt),
               rcvd := ext.spindump_timestamp_to_timeval event.timestamp,
               why := "remote update" }] := by
  have hmem : event.eventType ∈ find_event_types := by simp [htype, find_event_types]
  have hrun := processevent_of_find ext state event hmem
  rw [find_connection_eq, hreq] at hrun
  simp only at hrun
  have h0 : ¬ (call_searchconnection ext sc state).1 = 0 := hfound
  rw [if_neg h0, if_pos htype] at hrun
  unfold calls_made
  rw [hrun]
  constructor
  · rfl
  · have ht : (call_newrttmeasurement ext
          (rtt_request ext event (call_searchconnection ext sc state).1)
          (updateinfo_at ext (call_searchconnection ext sc state).2
            (call_searchconnection ext sc state).1 event)).trace
        = state.trace ++ [extern_call.search sc,
            extern_call.newrttmeasurement
              (rtt_request ext event (ext.searchconnection sc state.table state.heap))] := by
      simp only [call_newrttmeasurement, updateinfo_at, call_searchconnection,
        List.append_assoc, List.singleton_append]
    simp only [ht, drop_own_length]
    rfl

/-- Instance of `rtt_forwarding`: an RTT event for the tcp session `443:51000`, from the
responder and unidirectional, with time stamp `1000` and RTT `300`, on a store that
finds connection `1`. -/
theorem rtt_forwarding_witness :
    calls_made sample_externals (sample_state 1)
        (sample_typed_event spindump_event_type.new_rtt_measurement
          spindump_connection_type.transport_tcp "443:51000")
      = [extern_call.search
           (search_call.searchconnection_tcp { ss_family := 2, addr := [10, 0, 0, 1] }
             { ss_family := 2, addr := [10, 0, 0, 2] } 443 51000),
         extern_call.newrttmeasurement
           { packet := 0, connection := 1, right := 1, unidirectional := 1,
             sent := { tv_sec := 0, tv_usec := 700 },
             rcvd := { tv_sec := 0, tv_usec := 1000 },
             why := "remote update" }] :=
  (rtt_forwarding sample_externals (sample_state 1)
    (sample_typed_event spindump_event_type.new_rtt_measurement
      spindump_connection_type.transport_tcp "443:51000")
    (search_call.searchconnection_tcp { ss_family := 2, addr := [10, 0, 0, 1] }
      { ss_family := 2, addr := [10, 0, 0, 2] } 443 51000)
    rfl (by decide) (by decide)).2

/-! ## Create and find (`spindump_analyze_processevent`) -/

/-- C15 fails on the code for the coap kind. A new-connection event of kind coap with
host addresses and the session `5683:51000` makes one create call, and that call is
the create primitive of the dns kind (`spindump_connections_newconnection_dns`), while
the same event as a change-connection event calls the search primitive of the coap
kind. -/
theorem coap_create_calls_dns :
    calls_made sample_externals (sample_state 0)
        (sample_typed_event spindump_event_type.new_connection
          spindump_connection_type.transport_coap "5683:51000")
      = [extern_call.create
           (create_call.newconnection_dns { ss_family := 2, addr := [10, 0, 0, 1] }
             { ss_family := 2, addr := [10, 0, 0, 2] } 5683 51000
             { tv_sec := 0, tv_usec := 1000 })]
    ∧ (create_call.newconnection_dns { ss_family := 2, addr := [10, 0, 0, 1] }
          { ss_family := 2, addr := [10, 0, 0, 2] } 5683 51000
          { tv_sec := 0, tv_usec := 1000 }).kind
        ≠ spindump_connection_type.transport_coap
    ∧ calls_made sample_externals (sample_state 1)
        (sample_typed_event spindump_event_type.change_connection
          spindump_connection_type.transport_coap "5683:51000")
      = [extern_call.search
           (search_call.searchconnection_coap { ss_family := 2, addr := [10, 0, 0, 1] }
             { ss_family := 2, addr := [10, 0, 0, 2] } 5683 51000)] := by
  decide

/-- C16. For every new-connection event of kind quic whose two addresses are hosts and
whose session decodes to the connection id pair `(c1, c2)` in textual order, the one
call made is the QUIC create primitive with the event's initiator and responder
addresses, both ports `0`, the ids in the order `(c2, c1)` and the converted event time
stamp. -/
theorem quic_create_arguments {τ : Type} (ext : externals τ) (state : spindump_analyze τ)
    (event : spindump_event) (c1 c2 : spindump_quic_connectionid)
    (htype : event.eventType = spindump_event_type.new_connection)
    (hkind : event.connectionType = spindump_connection_type.transport_quic)
    (hhost1 : ext.spindump_network_ishost event.initiatorAddress ≠ 0)
    (hhost2 : ext.spindump_network_ishost event.responderAddress ≠ 0)
    (hcid : spindump_analyze_event_parsecidpair ext.spindump_connection_quic_cid_maxlen event
        { len := 0, id := [] } { len := 0, id := [] } = (1, c1, c2)) :
    calls_made ext state event
      = [extern_call.create
           (create_call.newconnection_quic_5tupleandcids event.initiatorAddress.address
             event.responderAddress.address 0 0 c2 c1
             (ext.spindump_timestamp_to_timeval event.timestamp))] := by
  have hhp : ¬ spindump_analyze_event_parsehostpair ext.spindump_network_ishost event = 0 := by
    intro h0
    rcases (parsehostpair_aux _ event).2.1 h0 with h | h
    · exact hhost1 h
    · exact hhost2 h
  have hreq : create_request ext event
      = some (create_call.newconnection_quic_5tupleandcids event.initiatorAddress.address
          event.responderAddress.address 0 0 c2 c1
          (ext.spindump_timestamp_to_timeval event.timestamp)) := by
    unfold create_request
    simp [hkind, hhp, hcid]
  rcases new_connection_run ext state event htype with ⟨hnone, _⟩ | ⟨c, hc, _, htrace⟩
  · rw [hreq] at hnone
    exact absurd hnone (by simp)
  · rw [hreq] at hc
    have hc2 := Option.some.inj hc
    unfold calls_made
    rw [htrace, drop_own_length, ← hc2]

/-- Instance of `quic_create_arguments`: the session `ab12-cd34ef` decodes to ids of
lengths `2` and `3`, and the create call receives the id of length `3` first. -/
theorem quic_create_arguments_witness :
    calls_made sample_externals (sample_state 0)
        (sample_typed_event spindump_event_type.new_connection
          spindump_connection_type.transport_quic "ab12-cd34ef")
      = [extern_call.create
           (create_call.newconnection_quic_5tupleandcids
             { ss_family := 2, addr := [10, 0, 0, 1] } { ss_family := 2, addr := [10, 0, 0, 2] }
             0 0 { len := 3, id := List.replicate 18 0 } { len := 2, id := List.replicate 18 0 }
             { tv_sec := 0, tv_usec := 1000 })] :=
  quic_create_arguments sample_externals (sample_state 0)
    (sample_typed_event spindump_event_type.new_connection
      spindump_connection_type.transport_quic "ab12-cd34ef")
    { len := 2, id := List.replicate 18 0 } { len := 3, id := List.replicate 18 0 }
    rfl rfl (by decide) (by decide) (by decide)

/-- C17. The record of calls after `spindump_analyze_processevent` is the record before
it followed by the calls made; a create call is made only when the event type is
new-connection; and for each of the six other event types, a connection that is
returned is the result of a search call, which is the first call made. -/
theorem create_only_for_new_connection {τ : Type} (ext : externals τ)
    (state : spindump_analyze τ) (event : spindump_event) :
    (spindump_analyze_processevent ext state event).2.trace
        = state.trace ++ calls_made ext state event
    ∧ (∀ c : create_call, extern_call.create c ∈ calls_made ext state event →
        event.eventType = spindump_event_type.new_connection)
    ∧ (event.eventType ∈ find_event_types →
        (spindump_analyze_processevent ext state event).1 ≠ 0 →
        ∃ sc : search_call,
          (calls_made ext state event).head? = some (extern_call.search sc)
          ∧ (spindump_analyze_processevent ext state event).1
              = ext.searchconnection sc state.table state.heap) := by
  by_cases hnew : event.eventType = spindump_event_type.new_connection
  · have hnot : event.eventType ∉ find_event_types := by simp [hnew, find_event_types]
    refine ⟨?_, fun _ _ => hnew, fun h => absurd h hnot⟩
    rcases new_connection_run ext state event hnew with ⟨_, h0⟩ | ⟨c, _, _, htrace⟩
    · simp [calls_made, h0]
    · simp [calls_made, htrace]
  · by_cases hfind : event.eventType ∈ find_event_types
    · rcases find_event_run ext state event hfind with ⟨_, h0⟩ | ⟨sc, _, hres, htrace⟩
      · refine ⟨by simp [calls_made, h0], ?_, ?_⟩
        · intro c hc
          simp [calls_made, h0] at hc
        · intro _ hne
          rw [h0] at hne
          exact absurd rfl hne
      · rcases htrace with htrace | ⟨rc, htrace⟩
        · have hcalls : calls_made ext state event = [extern_call.search sc] := by
            unfold calls_made; rw [htrace, drop_own_length]
          refine ⟨by rw [hcalls, htrace], ?_, ?_⟩
          · intro c hc
            rw [hcalls] at hc
            simp at hc
          · intro _ _
            exact ⟨sc, by rw [hcalls]; rfl, hres⟩
        · have hcalls : calls_made ext state event
              = [extern_call.search sc, extern_call.newrttmeasurement rc] := by
            unfold calls_made; rw [htrace, drop_own_length]
          refine ⟨by rw [hcalls, htrace], ?_, ?_⟩
          · intro c hc
            rw [hcalls] at hc
            simp at hc
          · intro _ _
            exact ⟨sc, by rw [hcalls]; rfl, hres⟩
    · have hinv : ∃ code, event.eventType = spindump_event_type.invalid code := by
        cases hty : event.eventType <;> simp_all [find_event_types]
      obtain ⟨code, hcode⟩ := hinv
      have h0 : spindump_analyze_processevent ext state event = (0, state) := by
        unfold spindump_analyze_processevent
        simp [hcode]
      refine ⟨by simp [calls_made, h0], ?_, fun h => absurd h hfind⟩
      intro c hc
      simp [calls_made, h0] at hc

/-- Instance of `create_only_for_new_connection`: a change-connection event for the tcp
session `443:51000` on a store that finds connection `1` returns that connection, found
by the search call made first. -/
theorem create_only_for_new_connection_witness :
    ∃ sc : search_call,
      (calls_made sample_externals (sample_state 1)
          (sample_typed_event spindump_event_type.change_connection
            spindump_connection_type.transport_tcp "443:51000")).head?
        = some (extern_call.search sc)
      ∧ (spindump_analyze_processevent sample_externals (sample_state 1)
          (sample_typed_event spindump_event_type.change_connection
            spindump_connection_type.transport_tcp "443:51000")).1
          = sample_externals.searchconnection sc (sample_state 1).table (sample_state 1).heap :=
  (create_only_for_new_connection sample_externals (sample_state 1)
    (sample_typed_event spindump_event_type.change_connection
      spindump_connection_type.transport_tcp "443:51000")).2.2 (by decide) (by decide)

/-! ## Failures (`spindump_analyze_processevent`) -/

/-- C18. For every event, of any event type and connection kind, whose address-shape
validation or session decode fails, `spindump_analyze_processevent` returns no
connection and leaves the analyzer state as it was: the table, every connection object
and the record of calls are unchanged, so no create call, no search call, no merge and
no RTT call has been made. -/
theorem decode_failure_atomic {τ : Type} (ext : externals τ) (state : spindump_analyze τ)
    (event : spindump_event) (hfail : decode_fails ext event = true) :
    spindump_analyze_processevent ext state event = (0, state)
    ∧ calls_made ext state event = [] := by
  obtain ⟨hc, hs⟩ := decode_fails_requests ext event hfail
  have h0 := processevent_of_no_request ext state event hc hs
  exact ⟨h0, by simp [calls_made, h0]⟩

/-- Instance of `decode_failure_atomic`: a new-connection tcp event whose session `443`
has no colon, and a change-connection tcp event whose session holds a port above
`65535`. -/
theorem decode_failure_atomic_witness :
    spindump_analyze_processevent sample_externals (sample_state 1)
        (sample_typed_event spindump_event_type.new_connection
          spindump_connection_type.transport_tcp "443")
      = (0, sample_state 1)
    ∧ spindump_analyze_processevent sample_externals (sample_state 1)
        (sample_typed_event spindump_event_type.change_connection
          spindump_connection_type.transport_tcp "443:65536")
      = (0, sample_state 1) :=
  ⟨(decode_failure_atomic sample_externals (sample_state 1)
      (sample_typed_event spindump_event_type.new_connection
        spindump_connection_type.transport_tcp "443") (by decide)).1,
   (decode_failure_atomic sample_externals (sample_state 1)
      (sample_typed_event spindump_event_type.change_connection
        spindump_connection_type.transport_tcp "443:65536") (by decide)).1⟩

/-- C19. For every event of one of the six types other than new-connection whose
validation and decode succeed, so that the search call `sc` is issued, and for which
that search returns nothing, `spindump_analyze_processevent` returns no connection, the
table and every connection object are unchanged, and the only call made is the search
(the RTT aggregator is not called). -/
theorem lookup_failure {τ : Type} (ext : externals τ) (state : spindump_analyze τ)
    (event : spindump_event) (sc : search_call)
    (htype : event.eventType ∈ find_event_types)
    (hreq : search_request ext event = some sc)
    (hnone : ext.searchconnection sc state.table state.heap = 0) :
    (spindump_analyze_processevent ext state event).1 = 0
    ∧ (spindump_analyze_processevent ext state event).2.table = state.table
    ∧ (spindump_analyze_processevent ext state event).2.heap = state.heap
    ∧ calls_made ext state event = [extern_call.search sc] := by
  have hrun := processevent_of_find ext state event htype
  rw [find_connection_eq, hreq] at hrun
  simp only at hrun
  have h0 : (call_searchconnection ext sc state).1 = 0 := hnone
  rw [if_pos h0] at hrun
  unfold calls_made
  rw [hrun]
  refine ⟨hnone, rfl, rfl, ?_⟩
  simp [call_searchconnection]

/-- Instance of `lookup_failure`: a change-connection event for the tcp session
`443:51000` on a store that holds no connection. -/
theorem lookup_failure_witness :
    (spindump_analyze_processevent sample_externals (sample_state 0)
        (sample_typed_event spindump_event_type.change_connection
          spindump_connection_type.transport_tcp "443:51000")).1 = 0
    ∧ (spindump_analyze_processevent sample_externals (sample_state 0)
        (sample_typed_event spindump_event_type.change_connection
          spindump_connection_type.transport_tcp "443:51000")).2.heap
        = (sample_state 0).heap
    ∧ calls_made sample_externals (sample_state 0)
        (sample_typed_event spindump_event_type.change_connection
          spindump_connection_type.transport_tcp "443:51000")
        = [extern_call.search
            (search_call.searchconnection_tcp { ss_family := 2, addr := [10, 0, 0, 1] }
              { ss_family := 2, addr := [10, 0, 0, 2] } 443 51000)] :=
  have h := lookup_failure sample_externals (sample_state 0)
    (sample_typed_event spindump_event_type.change_connection
      spindump_connection_type.transport_tcp "443:51000")
    (search_call.searchconnection_tcp { ss_family := 2, addr := [10, 0, 0, 1] }
      { ss_family := 2, addr := [10, 0, 0, 2] } 443 51000)
    (by decide) (by decide) (by decide)
  ⟨h.1, h.2.2.1, h.2.2.2⟩

/-- C20. For every event whose event type is none of the seven recognized types, and
for every event (of any event type) whose connection kind is none of the recognized
kinds, `spindump_analyze_processevent` sets the output pointer to `0` and leaves the
analyzer state as it was: no call is made and no connection object is changed. -/
theorem schema_errors {τ : Type} (ext : externals τ) (state : spindump_analyze τ)
    (event : spindump_event) (code : Nat) :
    spindump_analyze_processevent ext state
        { event with eventType := spindump_event_type.invalid code } = (0, state)
    ∧ spindump_analyze_processevent ext state
        { event with connectionType := spindump_connection_type.invalid code } = (0, state)
    ∧ calls_made ext state { event with eventType := spindump_event_type.invalid code } = []
    ∧ calls_made ext state
        { event with connectionType := spindump_connection_type.invalid code } = [] := by
  have h1 : spindump_analyze_processevent ext state
      { event with eventType := spindump_event_type.invalid code } = (0, state) := by
    simp [spindump_analyze_processevent]
  have h2 : spindump_analyze_processevent ext state
      { event with connectionType := spindump_connection_type.invalid code } = (0, state) :=
    processevent_of_no_request ext state _ (by simp [create_request])
      (by simp [search_request])
  exact ⟨h1, h2, by simp [calls_made, h1], by simp [calls_made, h2]⟩

/-! ## Merge: frame and idempotence -/

/-- C24. The merge changes only the six attributes `packetsFromSide1/2`,
`bytesFromSide1/2` and `latestPacketFromSide1/2`: the other fields of the connection
keep their values; applied through a pointer it leaves the table, the record of calls
and every other connection object as they were; and the latest-packet time it gives
side 1 is the same whatever the side 2 counters and time of the connection and of the
event are (and likewise for side 2). -/
theorem updateinfo_frame {τ : Type} (ext : externals τ) (state : spindump_analyze τ)
    (connection : Nat) (c : spindump_connection) (e : spindump_event)
    (packets bytes packets2 bytes2 : Nat) (latest : timeval) :
    (spindump_analyze_event_updateinfo ext.spindump_timestamp_to_timeval c e).id = c.id
    ∧ (spindump_analyze_event_updateinfo ext.spindump_timestamp_to_timeval c e).other = c.other
    ∧ (updateinfo_at ext state connection e).table = state.table
    ∧ (updateinfo_at ext state connection e).trace = state.trace
    ∧ (∀ p : Nat, (updateinfo_at ext state connection e).heap p
        = if p = connection then
            spindump_analyze_event_updateinfo ext.spindump_timestamp_to_timeval
              (state.heap connection) e
          else state.heap p)
    ∧ (spindump_analyze_event_updateinfo ext.spindump_timestamp_to_timeval
          { c with packetsFromSide2 := packets, bytesFromSide2 := bytes,
                   latestPacketFromSide2 := latest }
          { e with packetsFromSide2 := packets2, bytesFromSide2 := bytes2 }).latestPacketFromSide1
        = (spindump_analyze_event_updateinfo ext.spindump_timestamp_to_timeval c e).latestPacketFromSide1
    ∧ (spindump_analyze_event_updateinfo ext.spindump_timestamp_to_timeval
          { c with packetsFromSide1 := packets, bytesFromSide1 := bytes,
                   latestPacketFromSide1 := latest }
          { e with packetsFromSide1 := packets2, bytesFromSide1 := bytes2 }).latestPacketFromSide2
        = (spindump_analyze_event_updateinfo ext.spindump_timestamp_to_timeval c e).latestPacketFromSide2 := by
  refine ⟨?_, ?_, rfl, rfl, fun p => rfl, ?_, ?_⟩
  · unfold spindump_analyze_event_updateinfo
    by_cases h1 : c.packetsFromSide1 < e.packetsFromSide1 <;>
      by_cases h2 : c.packetsFromSide2 < e.packetsFromSide2 <;> simp [h1, h2]
  · unfold spindump_analyze_event_updateinfo
    by_cases h1 : c.packetsFromSide1 < e.packetsFromSide1 <;>
      by_cases h2 : c.packetsFromSide2 < e.packetsFromSide2 <;> simp [h1, h2]
  · rw [(updateinfo_latest_aux _ _ _).1, (updateinfo_latest_aux _ _ _).1]
  · rw [(updateinfo_latest_aux _ _ _).2, (updateinfo_latest_aux _ _ _).2]

/-- C28. Applying the merge with the same event twice gives the same connection as
applying it once. -/
theorem updateinfo_idempotent (conv : Nat → timeval) (c : spindump_connection)
    (e : spindump_event) :
    spindump_analyze_event_updateinfo conv (spindump_analyze_event_updateinfo conv c e) e
      = spindump_analyze_event_updateinfo conv c e := by
  have hc := updateinfo_counters_aux conv c e
  have h1 : ¬ (spindump_analyze_event_updateinfo conv c e).packetsFromSide1
      < e.packetsFromSide1 := by rw [hc.1]; exact Nat.lt_irrefl _
  have h2 : ¬ (spindump_analyze_event_updateinfo conv c e).packetsFromSide2
      < e.packetsFromSide2 := by rw [hc.2.1]; exact Nat.lt_irrefl _
  generalize hm : spindump_analyze_event_updateinfo conv c e = m at hc h1 h2
  unfold spindump_analyze_event_updateinfo
  simp only [if_neg h1, if_neg h2]
  cases m
  simp only [spindump_connection.mk.injEq, and_true, true_and]
  simp only at hc
  exact ⟨hc.1.symm, hc.2.1.symm, hc.2.2.1.symm, hc.2.2.2.symm⟩

/-! ## QUIC connection id decode as coded -/

/-- C25. The connection id decode returns `1` exactly when the character count is even,
half of it is at most `spindump_connection_quic_cid_maxlen`, and the helper
`spindump_analyze_event_charbytetobyte` returns a non-zero value on every aligned pair
of characters. The helper returns `0` when `sscanf` converts nothing and otherwise the
converted value cut to 8 bits (for two hexadecimal digits, the value of the pair), and
stores nothing. Hence a text with the aligned pair `00` is refused, and a pair whose
first character is a hexadecimal digit other than `0` is accepted whatever its second
character is. -/
theorem cid_decode_success_iff (maxlen : Nat) (buf : List Char) (nchars : Nat)
    (id : spindump_quic_connectionid) (ch1 ch2 : Char) (byte : Nat) :
    ((spindump_analyze_event_string_to_quicconnectionid maxlen buf nchars id).1 = 1
        ↔ (nchars % 2 = 0 ∧ nchars / 2 ≤ maxlen
            ∧ ∀ i : Nat, i < nchars / 2 →
                (spindump_analyze_event_charbytetobyte (buf.getD (2 * i) '\x00')
                  (buf.getD (2 * i + 1) '\x00') 0).1 ≠ 0))
    ∧ ((spindump_analyze_event_string_to_quicconnectionid maxlen buf nchars id).1 = 0
        ∨ (spindump_analyze_event_string_to_quicconnectionid maxlen buf nchars id).1 = 1)
    ∧ spindump_analyze_event_charbytetobyte ch1 ch2 byte
        = (if (sscanf_x [ch1, ch2, '\x00']).1 < 1 then 0
           else (((sscanf_x [ch1, ch2, '\x00']).2 % 256 : Nat) : Int), byte)
    ∧ (isxdigit ch1 = true → isxdigit ch2 = true →
        (spindump_analyze_event_charbytetobyte ch1 ch2 byte).1
          = ((((digit_value 16 ch1).getD 0 * 16 + (digit_value 16 ch2).getD 0 : Nat)) : Int))
    ∧ (spindump_analyze_event_charbytetobyte '0' '0' byte).1 = 0
    ∧ (∀ i : Nat, i < nchars / 2 → buf.getD (2 * i) '\x00' = '0' →
        buf.getD (2 * i + 1) '\x00' = '0' →
        (spindump_analyze_event_string_to_quicconnectionid maxlen buf nchars id).1 = 0)
    ∧ (isxdigit ch1 = true → ch1 ≠ '0' →
        (spindump_analyze_event_charbytetobyte ch1 ch2 byte).1 ≠ 0) := by
  obtain ⟨h01, hiff, _⟩ := string_to_quicconnectionid_spec maxlen buf nchars id
  have h00 : ∀ b : Nat, (spindump_analyze_event_charbytetobyte '0' '0' b).1 = 0 := by
    intro b
    rw [charbytetobyte_of_digit '0' '0' b 0 (by decide) (by decide) (by decide) (by decide)
      (by decide) (by decide)]
    have hz : digit_value 16 '0' = some 0 := by decide
    rw [hz]
    rfl
  refine ⟨hiff, h01, ?_, ?_, h00 byte, ?_, ?_⟩
  · unfold spindump_analyze_event_charbytetobyte
    simp only
    split_ifs <;> rfl
  · intro hx1 hx2
    obtain ⟨hd1, _, _, hsp, hm, hp, hnul, _, _⟩ := xdigit_facts ch1 hx1
    obtain ⟨hd2, _, _, _, _, _, _, hnx, hnX⟩ := xdigit_facts ch2 hx2
    rw [charbytetobyte_of_digit ch1 ch2 byte _ hd1 hsp hm hp hnul
      (fun h => h.2.elim hnx hnX)]
    rw [hd2]
    rfl
  · intro i hi e1 e2
    rcases h01 with h0 | h1
    · exact h0
    · have hne := (hiff.1 h1).2.2 i hi
      rw [e1, e2] at hne
      exact absurd (h00 0) hne
  · intro hx1 hne0
    obtain ⟨hd1, hlt, hpos, hsp, hm, hp, hnul, _, _⟩ := xdigit_facts ch1 hx1
    have hpos1 := hpos hne0
    rw [charbytetobyte_of_digit ch1 ch2 byte _ hd1 hsp hm hp hnul (fun h => hne0 h.1)]
    cases hv : digit_value 16 ch2 with
    | none =>
      show (((digit_value 16 ch1).getD 0 : Nat) : Int) ≠ 0
      omega
    | some d2 =>
      show ((((digit_value 16 ch1).getD 0 * 16 + d2 : Nat)) : Int) ≠ 0
      omega

/-- Instance of `cid_decode_success_iff`: the text `ab00` with its aligned pair `00` is
refused, and the pair `1g` gives the helper a non-zero result. -/
theorem cid_decode_success_iff_witness :
    (spindump_analyze_event_string_to_quicconnectionid 18 "ab00".toList 4
        { len := 0, id := [] }).1 = 0
    ∧ (spindump_analyze_event_charbytetobyte '1' 'g' 0).1 ≠ 0 :=
  ⟨(cid_decode_success_iff 18 "ab00".toList 4 { len := 0, id := [] } '1' 'g' 0).2.2.2.2.2.1
      1 (by decide) (by decide) (by decide),
   (cid_decode_success_iff 18 "ab00".toList 4 { len := 0, id := [] } '1' 'g' 0).2.2.2.2.2.2
      (by decide) (by decide)⟩

/-- C26. The connection id decode returns for every character count, with result `0`
or `1`; whenever it returns `1`, the connection id has length `nchars / 2`, which is at
most `spindump_connection_quic_cid_maxlen`, and an id array whose bytes are all `0`; so
two successful decodes with the same character count give equal connection ids,
whatever the two texts are. -/
theorem cid_decode_result (maxlen : Nat) (buf buf2 : List Char) (nchars : Nat)
    (id id2 : spindump_quic_connectionid) :
    ((spindump_analyze_event_string_to_quicconnectionid maxlen buf nchars id).1 = 0
        ∨ (spindump_analyze_event_string_to_quicconnectionid maxlen buf nchars id).1 = 1)
    ∧ ((spindump_analyze_event_string_to_quicconnectionid maxlen buf nchars id).1 = 1 →
        (spindump_analyze_event_string_to_quicconnectionid maxlen buf nchars id).2
            = { len := nchars / 2, id := List.replicate maxlen 0 }
        ∧ nchars / 2 ≤ maxlen
        ∧ ∀ b ∈ (spindump_analyze_event_string_to_quicconnectionid maxlen buf nchars id).2.id,
            b = 0)
    ∧ ((spindump_analyze_event_string_to_quicconnectionid maxlen buf nchars id).1 = 1 →
        (spindump_analyze_event_string_to_quicconnectionid maxlen buf2 nchars id2).1 = 1 →
        (spindump_analyze_event_string_to_quicconnectionid maxlen buf nchars id).2
          = (spindump_analyze_event_string_to_quicconnectionid maxlen buf2 nchars id2).2) := by
  obtain ⟨h01, hiff, hres⟩ := string_to_quicconnectionid_spec maxlen buf nchars id
  obtain ⟨_, _, hres2⟩ := string_to_quicconnectionid_spec maxlen buf2 nchars id2
  refine ⟨h01, ?_, ?_⟩
  · intro h
    refine ⟨hres h, (hiff.1 h).2.1, ?_⟩
    rw [hres h]
    intro b hb
    exact (List.mem_replicate.1 hb).2
  · intro h h2
    rw [hres h, hres2 h2]

/-- Instance of `cid_decode_result`: the texts `ab12` and `cd34` decode to the same
connection id, of length `2` with all bytes `0`. -/
theorem cid_decode_result_witness :
    (spindump_analyze_event_string_to_quicconnectionid 18 "ab12".toList 4
        { len := 0, id := [] }).2
      = { len := 2, id := List.replicate 18 0 }
    ∧ (spindump_analyze_event_string_to_quicconnectionid 18 "ab12".toList 4
        { len := 0, id := [] }).2
      = (spindump_analyze_event_string_to_quicconnectionid 18 "cd34".toList 4
        { len := 0, id := [] }).2 :=
  ⟨((cid_decode_result 18 "ab12".toList "cd34".toList 4 { len := 0, id := [] }
      { len := 0, id := [] }).2.1 (by decide)).1,
   (cid_decode_result 18 "ab12".toList "cd34".toList 4 { len := 0, id := [] }
      { len := 0, id := [] }).2.2 (by decide) (by decide)⟩

/-! ## Resolution, merge and RTT forwarding -/

/-- C27. For every event of kind quic with host addresses whose session decodes to the
connection id pair `(c1, c2)`: as a new-connection event the one call made is the QUIC
create primitive with the ids in the order `(c2, c1)`, and as an event of any of the six
other types the first call made is the QUIC search primitive with the ids in the order
`(c1, c2)`; the pair searched for is the pair created with only when `c1 = c2`. -/
theorem quic_create_find_keys {τ : Type} (ext : externals τ) (state : spindump_analyze τ)
    (event : spindump_event) (c1 c2 : spindump_quic_connectionid) (t : spindump_event_type)
    (hkind : event.connectionType = spindump_connection_type.transport_quic)
    (hhost1 : ext.spindump_network_ishost event.initiatorAddress ≠ 0)
    (hhost2 : ext.spindump_network_ishost event.responderAddress ≠ 0)
    (hcid : spindump_analyze_event_parsecidpair ext.spindump_connection_quic_cid_maxlen event
        { len := 0, id := [] } { len := 0, id := [] } = (1, c1, c2))
    (ht : t ∈ find_event_types) :
    calls_made ext state { event with eventType := spindump_event_type.new_connection }
        = [extern_call.create
            (create_call.newconnection_quic_5tupleandcids event.initiatorAddress.address
              event.responderAddress.address 0 0 c2 c1
              (ext.spindump_timestamp_to_timeval event.timestamp))]
    ∧ (calls_made ext state { event with eventType := t }).head?
        = some (extern_call.search (search_call.searchconnection_quic_cids c1 c2))
    ∧ ((c2, c1) = (c1, c2) ↔ c1 = c2) := by
  obtain ⟨hcreate, hsearch⟩ := quic_requests_aux ext event c1 c2 hkind hhost1 hhost2 hcid
  refine ⟨?_, ?_, ?_⟩
  · rcases new_connection_run ext state
        { event with eventType := spindump_event_type.new_connection } rfl
      with ⟨hnone, _⟩ | ⟨c, hc, _, htrace⟩
    · rw [(requests_eventType ext event _).1, hcreate] at hnone
      exact absurd hnone (by simp)
    · rw [(requests_eventType ext event _).1, hcreate] at hc
      have hc2 := Option.some.inj hc
      unfold calls_made
      rw [htrace, drop_own_length, ← hc2]
  · rcases find_event_run ext state { event with eventType := t } ht
      with ⟨hnone, _⟩ | ⟨sc, hsc, _, htrace⟩
    · rw [(requests_eventType ext event _).2, hsearch] at hnone
      exact absurd hnone (by simp)
    · rw [(requests_eventType ext event _).2, hsearch] at hsc
      have hsc2 := Option.some.inj hsc
      unfold calls_made
      rcases htrace with htrace | ⟨rc, htrace⟩
      · rw [htrace, drop_own_length, ← hsc2]; rfl
      · rw [htrace, drop_own_length, ← hsc2]; rfl
  · constructor
    · intro h; exact (Prod.mk.inj h).2
    · intro h; rw [h]

/-- Instance of `quic_create_find_keys`: for the session `ab12-cd34ef` the create call
receives the ids of lengths `3` and `2`, and the search call those of lengths `2` and
`3`. -/
theorem quic_create_find_keys_witness :
    calls_made sample_externals (sample_state 0)
        { sample_typed_event spindump_event_type.change_connection
            spindump_connection_type.transport_quic "ab12-cd34ef" with
          eventType := spindump_event_type.new_connection }
      = [extern_call.create
           (create_call.newconnection_quic_5tupleandcids
             { ss_family := 2, addr := [10, 0, 0, 1] } { ss_family := 2, addr := [10, 0, 0, 2] }
             0 0 { len := 3, id := List.replicate 18 0 } { len := 2, id := List.replicate 18 0 }
             { tv_sec := 0, tv_usec := 1000 })]
    ∧ (calls_made sample_externals (sample_state 0)
        { sample_typed_event spindump_event_type.change_connection
            spindump_connection_type.transport_quic "ab12-cd34ef" with
          eventType := spindump_event_type.change_connection }).head?
      = some (extern_call.search
          (search_call.searchconnection_quic_cids { len := 2, id := List.replicate 18 0 }
            { len := 3, id := List.replicate 18 0 })) :=
  have h := quic_create_find_keys sample_externals (sample_state 0)
    (sample_typed_event spindump_event_type.change_connection
      spindump_connection_type.transport_quic "ab12-cd34ef")
    { len := 2, id := List.replicate 18 0 } { len := 3, id := List.replicate 18 0 }
    spindump_event_type.change_connection rfl (by decide) (by decide) (by decide) (by decide)
  ⟨h.1, h.2.1⟩

/-- C21. For every event of any event type, if `spindump_analyze_processevent` returns
a connection, then on return the four packet and byte counters of that connection are
the event's four counters; for a new-rtt-measurement event this holds when the RTT
aggregator, which is called after the merge, leaves the counters as they are. -/
theorem merge_after_resolution {τ : Type} (ext : externals τ) (state : spindump_analyze τ)
    (event : spindump_event)
    (hagg : event.eventType = spindump_event_type.new_rtt_measurement →
      aggregator_keeps_counters ext)
    (hret : (spindump_analyze_processevent ext state event).1 ≠ 0) :
    connection_counters
        ((spindump_analyze_processevent ext state event).2.heap
          (spindump_analyze_processevent ext state event).1)
      = event_counters event := by
  by_cases hnew : event.eventType = spindump_event_type.new_connection
  · have hrun : spindump_analyze_processevent ext state event
        = spindump_analyze_processevent_new_connection ext state event 0 := by
      unfold spindump_analyze_processevent
      simp only [hnew]
    rw [hrun, new_connection_eq] at hret ⊢
    cases hreq : create_request ext event with
    | none =>
      rw [hreq] at hret
      exact absurd rfl hret
    | some call =>
      rw [hreq] at hret
      simp only at hret ⊢
      by_cases h0 : (call_newconnection ext call state).1 ≠ 0
      · rw [if_pos h0]
        exact updateinfo_at_counters ext _ _ event
      · rw [if_neg h0] at hret
        exact absurd hret h0
  · by_cases hfind : event.eventType ∈ find_event_types
    · rw [processevent_of_find ext state event hfind] at hret ⊢
      by_cases h0 : (spindump_analyze_processevent_find_connection ext state event).1 = 0
      · rw [if_pos h0] at hret
        exact absurd h0 hret
      · rw [if_neg h0]
        by_cases hrtt : event.eventType = spindump_event_type.new_rtt_measurement
        · rw [if_pos hrtt]
          simp only [call_newrttmeasurement]
          rw [hagg hrtt]
          exact updateinfo_at_counters ext _ _ event
        · rw [if_neg hrtt]
          exact updateinfo_at_counters ext _ _ event
    · exfalso
      apply hret
      unfold spindump_analyze_processevent
      cases hty : event.eventType <;> simp_all [find_event_types]

/-- Instance of `merge_after_resolution`: a new-connection event of kind tcp with the
session `443:51000` and host addresses makes the tcp create call with the two addresses
and the ports `443` and `51000`, and the counters of the created connection are the
event's `6, 5, 600, 600`. -/
theorem merge_after_resolution_witness :
    calls_made sample_externals (sample_state 0)
        (sample_typed_event spindump_event_type.new_connection
          spindump_connection_type.transport_tcp "443:51000")
      = [extern_call.create
           (create_call.newconnection_tcp { ss_family := 2, addr := [10, 0, 0, 1] }
             { ss_family := 2, addr := [10, 0, 0, 2] } 443 51000
             { tv_sec := 0, tv_usec := 1000 })]
    ∧ connection_counters
        ((spindump_analyze_processevent sample_externals (sample_state 0)
            (sample_typed_event spindump_event_type.new_connection
              spindump_connection_type.transport_tcp "443:51000")).2.heap
          (spindump_analyze_processevent sample_externals (sample_state 0)
            (sample_typed_event spindump_event_type.new_connection
              spindump_connection_type.transport_tcp "443:51000")).1)
      = (6, 5, 600, 600)
    ∧ connection_counters
        ((spindump_analyze_processevent sample_externals (sample_state 1)
            (sample_typed_event spindump_event_type.new_rtt_measurement
              spindump_connection_type.transport_tcp "443:51000")).2.heap
          (spindump_analyze_processevent sample_externals (sample_state 1)
            (sample_typed_event spindump_event_type.new_rtt_measurement
              spindump_connection_type.transport_tcp "443:51000")).1)
      = (6, 5, 600, 600) :=
  ⟨by decide,
   merge_after_resolution sample_externals (sample_state 0)
    (sample_typed_event spindump_event_type.new_connection
      spindump_connection_type.transport_tcp "443:51000")
    (fun h => absurd h (by decide)) (by decide),
   merge_after_resolution sample_externals (sample_state 1)
    (sample_typed_event spindump_event_type.new_rtt_measurement
      spindump_connection_type.transport_tcp "443:51000")
    (fun _ _ _ _ _ => rfl) (by decide)⟩

/-- C23. During one call of `spindump_analyze_processevent` the RTT aggregator is called
once if the event type is new-rtt-measurement and the connection is found, and not at
all otherwise, where the connection is found exactly when validation and decode succeed
and the search returns a connection; and when the aggregator is called, it is called on
the state in which the merge has been applied to the found connection. -/
theorem rtt_called_when_required {τ : Type} (ext : externals τ) (state : spindump_analyze τ)
    (event : spindump_event) :
    rtt_call_count (calls_made ext state event)
        = (if event.eventType = spindump_event_type.new_rtt_measurement
              ∧ (spindump_analyze_processevent_find_connection ext state event).1 ≠ 0
           then 1 else 0)
    ∧ ((spindump_analyze_processevent_find_connection ext state event).1 ≠ 0 ↔
        ∃ sc : search_call, search_request ext event = some sc
          ∧ ext.searchconnection sc state.table state.heap ≠ 0)
    ∧ (event.eventType = spindump_event_type.new_rtt_measurement →
        (spindump_analyze_processevent_find_connection ext state event).1 ≠ 0 →
        (spindump_analyze_processevent ext state event).2
            = call_newrttmeasurement ext
                (rtt_request ext event
                  (spindump_analyze_processevent_find_connection ext state event).1)
                (updateinfo_at ext
                  (spindump_analyze_processevent_find_connection ext state event).2
                  (spindump_analyze_processevent_find_connection ext state event).1 event)
        ∧ connection_counters
            ((updateinfo_at ext
                (spindump_analyze_processevent_find_connection ext state event).2
                (spindump_analyze_processevent_find_connection ext state event).1 event).heap
              (spindump_analyze_processevent_find_connection ext state event).1)
          = event_counters event) := by
  obtain ⟨l, hl, hcount, hfound⟩ := find_connection_trace ext state event
  refine ⟨?_, hfound, ?_⟩
  · by_cases hnew : event.eventType = spindump_event_type.new_connection
    · have hcond : ¬ (event.eventType = spindump_event_type.new_rtt_measurement
          ∧ (spindump_analyze_processevent_find_connection ext state event).1 ≠ 0) := by
        intro h; rw [hnew] at h; exact absurd h.1 (by decide)
      rw [if_neg hcond]
      rcases new_connection_run ext state event hnew with ⟨_, h0⟩ | ⟨c, _, _, htrace⟩
      · simp [calls_made, h0, rtt_call_count]
      · unfold calls_made
        rw [htrace, drop_own_length]
        rfl
    · by_cases hfind : event.eventType ∈ find_event_types
      · unfold calls_made
        rw [processevent_of_find ext state event hfind]
        by_cases h0 : (spindump_analyze_processevent_find_connection ext state event).1 = 0
        · have hcond : ¬ (event.eventType = spindump_event_type.new_rtt_measurement
              ∧ (spindump_analyze_processevent_find_connection ext state event).1 ≠ 0) :=
            fun h => h.2 h0
          rw [if_pos h0, if_neg hcond, hl, drop_own_length, hcount]
        · rw [if_neg h0]
          by_cases hrtt : event.eventType = spindump_event_type.new_rtt_measurement
          · rw [if_pos hrtt, if_pos ⟨hrtt, h0⟩]
            simp only [call_newrttmeasurement, updateinfo_at, hl, List.append_assoc,
              drop_own_length]
            simp only [rtt_call_count, List.countP_append] at hcount ⊢
            rw [hcount]
            rfl
          · have hcond : ¬ (event.eventType = spindump_event_type.new_rtt_measurement
                ∧ (spindump_analyze_processevent_find_connection ext state event).1 ≠ 0) :=
              fun h => hrtt h.1
            rw [if_neg hrtt, if_neg hcond]
            simp only [updateinfo_at, hl, drop_own_length, hcount]
      · have hcond : ¬ (event.eventType = spindump_event_type.new_rtt_measurement
            ∧ (spindump_analyze_processevent_find_connection ext state event).1 ≠ 0) := by
          intro h; apply hfind; rw [h.1]; decide
        rw [if_neg hcond]
        have h0 : spindump_analyze_processevent ext state event = (0, state) := by
          unfold spindump_analyze_processevent
          cases hty : event.eventType <;> simp_all [find_event_types]
        simp [calls_made, h0, rtt_call_count]
  · intro hrtt h0
    have hfind : event.eventType ∈ find_event_types := by rw [hrtt]; decide
    rw [processevent_of_find ext state event hfind, if_neg h0, if_pos hrtt]
    exact ⟨rfl, updateinfo_at_counters ext _ _ event⟩

/-- Instance of `rtt_called_when_required`: an RTT event whose connection is found makes
one aggregator call, on a state where the counters of connection `1` are already the
event's; the same event on an empty store, and a change-connection event, make none. -/
theorem rtt_called_when_required_witness :
    rtt_call_count (calls_made sample_externals (sample_state 1)
        (sample_typed_event spindump_event_type.new_rtt_measurement
          spindump_connection_type.transport_tcp "443:51000")) = 1
    ∧ rtt_call_count (calls_made sample_externals (sample_state 0)
        (sample_typed_event spindump_event_type.new_rtt_measurement
          spindump_connection_type.transport_tcp "443:51000")) = 0
    ∧ rtt_call_count (calls_made sample_externals (sample_state 1)
        (sample_typed_event spindump_event_type.change_connection
          spindump_connection_type.transport_tcp "443:51000")) = 0
    ∧ connection_counters
        ((updateinfo_at sample_externals
            (spindump_analyze_processevent_find_connection sample_externals (sample_state 1)
              (sample_typed_event spindump_event_type.new_rtt_measurement
                spindump_connection_type.transport_tcp "443:51000")).2
            (spindump_analyze_processevent_find_connection sample_externals (sample_state 1)
              (sample_typed_event spindump_event_type.new_rtt_measurement
                spindump_connection_type.transport_tcp "443:51000")).1
            (sample_typed_event spindump_event_type.new_rtt_measurement
              spindump_connection_type.transport_tcp "443:51000")).heap
          (spindump_analyze_processevent_find_connection sample_externals (sample_state 1)
            (sample_typed_event spindump_event_type.new_rtt_measurement
              spindump_connection_type.transport_tcp "443:51000")).1)
      = (6, 5, 600, 600) :=
  ⟨(rtt_called_when_required sample_externals (sample_state 1)
      (sample_typed_event spindump_event_type.new_rtt_measurement
        spindump_connection_type.transport_tcp "443:51000")).1,
   (rtt_called_when_required sample_externals (sample_state 0)
      (sample_typed_event spindump_event_type.new_rtt_measurement
        spindump_connection_type.transport_tcp "443:51000")).1,
   (rtt_called_when_required sample_externals (sample_state 1)
      (sample_typed_event spindump_event_type.change_connection
        spindump_connection_type.transport_tcp "443:51000")).1,
   ((rtt_called_when_required sample_externals (sample_state 1)
      (sample_typed_event spindump_event_type.new_rtt_measurement
        spindump_connection_type.transport_tcp "443:51000")).2.2 rfl (by decide)).2⟩

end Spindump
